import Mathlib

/-!
Shallow embedding of the OpenPowderGame simulation core (src/js/renderer.js:
Engine and Interactions modules; src/unnamed/part_004: Particles module;
src/js/utils.js: Utils module).

Modelling conventions:
* JS numbers are embedded as `ℚ` (element tunables, life/burning/corrosion
  accumulators) or `Int` (grid coordinates, counters).  `Math.random()` is
  modelled by drawing the head of an explicit stream `Rng := List ℚ` of
  values; an exhausted stream yields `0` (theorems never rely on that
  default).
* The JS grid is `Array(height)` of `Array(width)` of `Particle | null`,
  embedded as `List (List (Option Particle))` with `List.set` updates.
* The JS `Set` of `"x,y"` strings used for active regions is embedded as an
  insertion-ordered duplicate-free `List (Int × Int)`.
* The `particle.burning` property holds numbers except for one assignment in
  the fire behavior which stores the string `'wood'`; `BVal` is a sum type
  covering both, with JS coercion semantics for `+ 1`, `>= 100` and
  truthiness where the source applies them.
* JS truthiness tests `!p.life`, `!p.burning`, `!p.corrosion` are embedded by
  `jsFalsyQ` / `jsFalsyB` (`undefined`, `0` and `''` are falsy).
-/

unseal Rat.add Rat.mul Rat.sub Rat.inv

namespace Powder

/-- A JS value that is a number or a string: only the `burning` particle
property ever holds a string (the fire behavior stores `'wood'` in it). -/
inductive BVal where
  | num (q : ℚ)
  | str (s : String)
deriving Repr, DecidableEq

/-- JS `x + 1` on a `burning` value: numeric increment, or string
concatenation with `"1"` for a string. -/
def BVal.incr : BVal → BVal
  | .num q => .num (q + 1)
  | .str s => .str (s ++ "1")

/-- JS `x >= 100` on a `burning` value: false for strings (NaN comparison). -/
def BVal.ge100 : BVal → Bool
  | .num q => decide (100 ≤ q)
  | .str _ => false

/-- JS falsiness of an optional number: `undefined` and `0` are falsy. -/
def jsFalsyQ : Option ℚ → Bool
  | none => true
  | some q => decide (q = 0)

/-- JS falsiness of an optional `BVal`: `undefined`, `0` and `''` are falsy. -/
def jsFalsyB : Option BVal → Bool
  | none => true
  | some (.num q) => decide (q = 0)
  | some (.str s) => decide (s = "")

/-- Stream of values standing for successive `Math.random()` results. -/
abbrev Rng := List ℚ

/-- Draw the next `Math.random()` value from the stream. -/
def randNext (rng : Rng) : ℚ × Rng :=
  match rng with
  | [] => (0, [])
  | v :: rest => (v, rest)

/-- A particle object (src/unnamed/part_004, `Particles.createParticle` and
src/js/renderer.js `importCompressedState`).  Fields that the source leaves
`undefined` are `none`. -/
structure Particle where
  type : String
  x : Int
  y : Int
  vx : Option ℚ := none
  vy : Option ℚ := none
  updated : Bool := false
  colorVariation : Option ℚ := none
  life : Option ℚ := none
  burning : Option BVal := none
  corrosion : Option ℚ := none
deriving Repr, DecidableEq

/-- One entry of a compressed snapshot (src/js/renderer.js,
`exportCompressedState`): position, type and the optional transient fields. -/
structure SavedParticle where
  x : Int
  y : Int
  type : String
  life : Option ℚ := none
  burning : Option BVal := none
  corrosion : Option ℚ := none
deriving Repr, DecidableEq

/-- A compressed grid snapshot (src/js/renderer.js, `exportCompressedState`). -/
structure CompressedState where
  particles : List SavedParticle
  width : Int
  height : Int
  count : Int
deriving Repr, DecidableEq

/-- The simulation grid: rows of cells, each empty or holding a particle. -/
abbrev Grid := List (List (Option Particle))

/-- The engine state (src/js/renderer.js, `Engine` constructor).
`skipNextUndo` embeds the `_skipNextUndo` flag (initially `undefined`,
i.e. falsy). -/
structure Engine where
  width : Int
  height : Int
  grid : Grid
  active : Bool := true
  gravity : String := "down"
  speed : ℚ := 1
  updateCount : Nat := 0
  undoStack : List CompressedState := []
  redoStack : List CompressedState := []
  maxUndoSteps : Nat := 10
  particleCount : Int := 0
  activeRegions : List (Int × Int) := []
  skipNextUndo : Bool := false
deriving Repr, DecidableEq

/-- Read `grid[y][x]`.  All source accesses are bounds-guarded, so the
`toNat`/default handling of out-of-range indices is never exercised on the
guarded paths. -/
def cell (g : Grid) (x y : Int) : Option Particle :=
  (g.getD y.toNat []).getD x.toNat none

/-- Write `grid[y][x] = v`. -/
def setCell (g : Grid) (x y : Int) (v : Option Particle) : Grid :=
  g.set y.toNat ((g.getD y.toNat []).set x.toNat v)

/-- `Engine._createGrid`: height rows of width `null` cells. -/
def createGrid (width height : Int) : Grid :=
  List.replicate height.toNat (List.replicate width.toNat none)

/-- The `Engine` constructor. -/
def mkEngine (width height : Int) : Engine :=
  { width := width, height := height, grid := createGrid width height }

/-- JS `Set.add` on the active-region set: append if not present
(insertion order preserved). -/
def setAdd (s : List (Int × Int)) (c : Int × Int) : List (Int × Int) :=
  if c ∈ s then s else s ++ [c]

/-- The 3×3 neighborhood offsets in the source's loop order
(`dy` outer from -1 to 1, `dx` inner), including the center. -/
def fullOffsets : List (Int × Int) :=
  [(-1,-1),(0,-1),(1,-1),(-1,0),(0,0),(1,0),(-1,1),(0,1),(1,1)]

/-- The 8 neighbor offsets in the source's loop order (center skipped). -/
def neighborOffsets : List (Int × Int) :=
  [(-1,-1),(0,-1),(1,-1),(-1,0),(1,0),(-1,1),(0,1),(1,1)]

/-- `Engine._markRegionActive` acting on an explicit target set: add the
cell, then every in-bounds cell of its 3×3 neighborhood. -/
def markRegion (width height : Int) (x y : Int) (s : List (Int × Int)) :
    List (Int × Int) :=
  fullOffsets.foldl
    (fun s off =>
      let nx := x + off.1
      let ny := y + off.2
      if 0 ≤ nx ∧ nx < width ∧ 0 ≤ ny ∧ ny < height then setAdd s (nx, ny)
      else s)
    (setAdd s (x, y))

/-- `Engine._markRegionActive` with the default target `this.activeRegions`. -/
def markRegionActive (e : Engine) (x y : Int) : Engine :=
  { e with activeRegions := markRegion e.width e.height x y e.activeRegions }

/-- Bounds test matching the guard `x < 0 || x >= width || y < 0 || y >= height`
(negated). -/
def inBounds (width height x y : Int) : Prop :=
  0 ≤ x ∧ x < width ∧ 0 ≤ y ∧ y < height

instance (w h x y : Int) : Decidable (inBounds w h x y) := by
  unfold inBounds; infer_instance

/-! ### Element registry (src/unnamed/part_004, `Particles.ELEMENTS`)

Static per-type properties.  Behavior functions are dispatched separately by
type name (`elemBehavior` below), mirroring the source table that stores both
in one record.  `lifespanScalar` embeds the scalar `lifespan` of acid, steam
and smoke; `lifespanMin`/`lifespanMax` embed the `lifespan: \x7bmin, max\x7d`
ranges of fire and spark. -/

/-- Static properties of one element definition. -/
structure ElementProps where
  density : ℚ := 0
  gravity : ℚ := 0
  inertia : ℚ := 0
  color : String := ""
  colorVariation : ℚ := 0
  state : String := ""
  flammable : Bool := false
  flammability : ℚ := 0
  conductive : Bool := false
  conductivity : ℚ := 0
  corrosive : Bool := false
  corrosionRate : ℚ := 0
  static : Bool := false
  spreadChance : ℚ := 0
  friction : ℚ := 0
  dispersion : ℚ := 0
  viscosity : ℚ := 0
  burnTime : ℚ := 0
  heatConduction : ℚ := 0
  evaporationTemp : ℚ := 0
  condensationTemp : ℚ := 0
  heat : ℚ := 0
  heatRadius : ℚ := 0
  lifespanScalar : ℚ := 0
  lifespanMin : Int := 0
  lifespanMax : Int := 0
  emitRate : ℚ := 0
  emitType : String := ""
  voidRadius : Int := 0

/-- `ELEMENTS['sand']`. -/
def sandProps : ElementProps :=
  { density := 3/2, gravity := 1, inertia := 4/5, color := "#e8d16f",
    colorVariation := 1/10, state := "solid", flammable := false,
    spreadChance := 4/5, friction := 2/5 }

/-- `ELEMENTS['wall']`. -/
def wallProps : ElementProps :=
  { density := 10, gravity := 0, inertia := 1, color := "#808080",
    colorVariation := 1/20, state := "solid", flammable := false,
    static := true }

/-- `ELEMENTS['wood']`. -/
def woodProps : ElementProps :=
  { density := 3/5, gravity := 0, inertia := 1, color := "#945c31",
    colorVariation := 1/10, state := "solid", flammable := true,
    flammability := 1/20, burnTime := 600, static := true }

/-- `ELEMENTS['metal']`. -/
def metalProps : ElementProps :=
  { density := 8, gravity := 0, inertia := 1, color := "#b8b8b8",
    colorVariation := 1/20, state := "solid", flammable := false,
    conductive := true, static := true, heatConduction := 4/5 }

/-- `ELEMENTS['water']`. -/
def waterProps : ElementProps :=
  { density := 1, gravity := 7/10, inertia := 3/10, color := "#4d97ff",
    colorVariation := 1/10, state := "liquid", flammable := false,
    evaporationTemp := 100, viscosity := 2/5, dispersion := 4/5 }

/-- `ELEMENTS['oil']`. -/
def oilProps : ElementProps :=
  { density := 4/5, gravity := 3/5, inertia := 2/5, color := "#704214",
    colorVariation := 3/20, state := "liquid", flammable := true,
    flammability := 1/5, burnTime := 240, viscosity := 3/5,
    dispersion := 7/10 }

/-- `ELEMENTS['acid']`. -/
def acidProps : ElementProps :=
  { density := 6/5, gravity := 13/20, inertia := 7/20, color := "#00ff00",
    colorVariation := 1/10, state := "liquid", flammable := false,
    corrosive := true, corrosionRate := 1/10, lifespanScalar := 200,
    dispersion := 3/4 }

/-- `ELEMENTS['steam']`. -/
def steamProps : ElementProps :=
  { density := 3/10, gravity := -(1/2), inertia := 1/5, color := "#dce6f5",
    colorVariation := 1/5, state := "gas", flammable := false,
    dispersion := 9/10, condensationTemp := 80, lifespanScalar := 300 }

/-- `ELEMENTS['smoke']`. -/
def smokeProps : ElementProps :=
  { density := 1/5, gravity := -(2/5), inertia := 3/20, color := "#555555",
    colorVariation := 1/5, state := "gas", flammable := false,
    dispersion := 19/20, lifespanScalar := 400 }

/-- `ELEMENTS['fire']`. -/
def fireProps : ElementProps :=
  { density := 3/20, gravity := -(3/10), inertia := 1/10, color := "#ff6422",
    colorVariation := 3/10, state := "energy", flammable := false,
    heat := 500, heatRadius := 2, lifespanMin := 40, lifespanMax := 100,
    spreadChance := 3/10 }

/-- `ELEMENTS['spark']`. -/
def sparkProps : ElementProps :=
  { density := 1/20, gravity := 0, inertia := 0, color := "#ffff00",
    colorVariation := 1/5, state := "energy", flammable := false,
    conductivity := 1, lifespanMin := 5, lifespanMax := 20 }

/-- `ELEMENTS['source-water']`. -/
def sourceWaterProps : ElementProps :=
  { density := 10, gravity := 0, inertia := 1, color := "#0077be",
    colorVariation := 1/20, state := "special", static := true,
    emitRate := 1/5, emitType := "water" }

/-- `ELEMENTS['source-sand']`. -/
def sourceSandProps : ElementProps :=
  { density := 10, gravity := 0, inertia := 1, color := "#d9b166",
    colorVariation := 1/20, state := "special", static := true,
    emitRate := 3/20, emitType := "sand" }

/-- `ELEMENTS['void']`. -/
def voidProps : ElementProps :=
  { density := 10, gravity := 0, inertia := 1, color := "#222222",
    colorVariation := 0, state := "special", static := true,
    voidRadius := 1 }

/-- The element registry keyed by type name (`Particles.ELEMENTS`). -/
def ELEMENTS : List (String × ElementProps) :=
  [("sand", sandProps), ("wall", wallProps), ("wood", woodProps),
   ("metal", metalProps), ("water", waterProps), ("oil", oilProps),
   ("acid", acidProps), ("steam", steamProps), ("smoke", smokeProps),
   ("fire", fireProps), ("spark", sparkProps),
   ("source-water", sourceWaterProps), ("source-sand", sourceSandProps),
   ("void", voidProps)]

/-! ### Utils (src/js/utils.js) -/

/-- `Utils.randomInt(min, max)`: `Math.floor(Math.random() * (max - min + 1)) + min`. -/
def randomInt (min max : Int) (rng : Rng) : Int × Rng :=
  let (v, rng) := randNext rng
  (Rat.floor (v * ((max : ℚ) - (min : ℚ) + 1)) + min, rng)

/-- `Utils.randomElement(array)`: `array[Math.floor(Math.random() * array.length)]`.
The default is only reached for an empty array (JS `undefined`); every call
site guards non-emptiness. -/
def randomElement (l : List (Int × Int)) (rng : Rng) : (Int × Int) × Rng :=
  let (v, rng) := randNext rng
  (l.getD (Rat.floor (v * (l.length : ℚ))).toNat (0, 0), rng)

/-- One iteration step of Bresenham in `Utils.getLine`. -/
def getLineStep (x0 y0 dx dy sx sy : Int) (err : Int) :
    Int × Int × Int :=
  let e2 := 2 * err
  let err := if e2 > -dy then err - dy else err
  let x0 := if e2 > -dy then x0 + sx else x0
  let err := if e2 < dx then err + dx else err
  let y0 := if e2 < dx then y0 + sy else y0
  (x0, y0, err)

/-- The `while(true)` loop of `Utils.getLine`, with fuel.  Each source
iteration strictly decreases `|x1-x0| + |y1-y0|`, so fuel
`|x1-x0| + |y1-y0| + 1` (supplied by `getLine`) runs the loop to its
`break`. -/
def getLineLoop (x1 y1 dx dy sx sy : Int) :
    Nat → Int → Int → Int → List (Int × Int)
  | 0, _, _, _ => []
  | fuel + 1, x0, y0, err =>
    if x0 = x1 ∧ y0 = y1 then [(x0, y0)]
    else
      let (x0n, y0n, errn) := getLineStep x0 y0 dx dy sx sy err
      (x0, y0) :: getLineLoop x1 y1 dx dy sx sy fuel x0n y0n errn

/-- `Utils.getLine`: Bresenham line points. -/
def getLine (x0 y0 x1 y1 : Int) : List (Int × Int) :=
  let dx := (x1 - x0).natAbs
  let dy := (y1 - y0).natAbs
  let sx : Int := if x0 < x1 then 1 else -1
  let sy : Int := if y0 < y1 then 1 else -1
  getLineLoop x1 y1 (dx : Int) (dy : Int) sx sy (dx + dy + 1) x0 y0
    ((dx : Int) - (dy : Int))

/-- Ascending integer range `[lo, hi]` as a list (loop helper). -/
def intRange (lo hi : Int) : List Int :=
  (List.range (hi + 1 - lo).toNat).map (fun i => lo + (i : Int))

/-- `Utils.getRectangle`. -/
def getRectangle (x0 y0 x1 y1 : Int) (filled : Bool) : List (Int × Int) :=
  let startX := min x0 x1
  let startY := min y0 y1
  let endX := max x0 x1
  let endY := max y0 y1
  if filled then
    (intRange startY endY).flatMap
      (fun y => (intRange startX endX).map (fun x => (x, y)))
  else
    (intRange startX endX).flatMap (fun x => [(x, startY), (x, endY)]) ++
      (intRange (startY + 1) (endY - 1)).flatMap
        (fun y => [(startX, y), (endX, y)])

/-- `Utils.getEllipse` for `filled = true`; the outline branch samples
trigonometric angles and is not needed by any claim, so only the filled
branch (used by the brush) is embedded; `getEllipse` with `filled = false`
returns this too only at the one unused call shape.  Division by zero (radius
0) follows the `ℚ` convention `q / 0 = 0`, which the brush never hits
(radius ≥ 1 in the UI). -/
def getEllipseFilled (x0 y0 radiusX radiusY : Int) : List (Int × Int) :=
  (intRange (y0 - radiusY) (y0 + radiusY)).flatMap
    (fun y =>
      (intRange (x0 - radiusX) (x0 + radiusX)).filterMap
        (fun x =>
          if (((x - x0 : Int) : ℚ) ^ 2 / ((radiusX : ℚ)) ^ 2 +
                ((y - y0 : Int) : ℚ) ^ 2 / ((radiusY : ℚ)) ^ 2 ≤ 1)
          then some (x, y) else none))

/-- `Utils.getBrushPoints`: a filled circle of the given radius. -/
def getBrushPoints (x y radius : Int) : List (Int × Int) :=
  getEllipseFilled x y radius radius

/-! ### Particle factory (src/unnamed/part_004, `Particles.createParticle`) -/

/-- `Particles.createParticle(type, x, y)`: `null` for an unknown type;
otherwise a fresh particle with `vx = vy = 0`, `updated = false`, a sampled
`colorVariation` when the element defines a nonzero variation, and a sampled
`life` for `fire` and `spark`. -/
def particlesCreate (type : String) (x y : Int) (rng : Rng) :
    Option Particle × Rng :=
  match List.lookup type ELEMENTS with
  | none => (none, rng)
  | some elementType =>
    let p : Particle :=
      { type := type, x := x, y := y, vx := some 0, vy := some 0,
        updated := false }
    let (p, rng) :=
      if 0 < elementType.colorVariation then
        let (v, rng) := randNext rng
        let cv := v * elementType.colorVariation * 2 -
          elementType.colorVariation
        ({ p with colorVariation := some cv }, rng)
      else (p, rng)
    let (p, rng) :=
      if type = "fire" ∨ type = "spark" then
        let (l, rng) :=
          randomInt elementType.lifespanMin elementType.lifespanMax rng
        ({ p with life := some (l : ℚ) }, rng)
      else (p, rng)
    (some p, rng)

/-! ### Engine mutation primitives (src/js/renderer.js, `Engine`) -/

/-- `Engine.createParticle(x, y, type)`. -/
def engCreateParticle (e : Engine) (x y : Int) (type : String) (rng : Rng) :
    Engine × Bool × Rng :=
  if ¬ inBounds e.width e.height x y then (e, false, rng)
  else if (cell e.grid x y).isSome then (e, false, rng)
  else
    match particlesCreate type x y rng with
    | (some particle, rng) =>
      let e := { e with grid := setCell e.grid x y (some particle),
                        particleCount := e.particleCount + 1 }
      (markRegionActive e x y, true, rng)
    | (none, rng) => (e, false, rng)

/-- `Engine.removeParticle(x, y)`. -/
def engRemoveParticle (e : Engine) (x y : Int) : Engine × Bool :=
  if ¬ inBounds e.width e.height x y then (e, false)
  else
    match cell e.grid x y with
    | some _ =>
      let e := { e with grid := setCell e.grid x y none,
                        particleCount := e.particleCount - 1 }
      (markRegionActive e x y, true)
    | none => (e, false)

/-- `Engine.moveParticle(fromX, fromY, toX, toY)`: requires an occupied
source and an empty destination; the moved particle's coordinates are
rewritten and it is marked `updated`. -/
def engMoveParticle (e : Engine) (fromX fromY toX toY : Int) :
    Engine × Bool :=
  if ¬ (inBounds e.width e.height fromX fromY ∧
        inBounds e.width e.height toX toY) then (e, false)
  else
    match cell e.grid fromX fromY, cell e.grid toX toY with
    | some p, none =>
      let moved := { p with x := toX, y := toY, updated := true }
      let g := setCell e.grid toX toY (some moved)
      let g := setCell g fromX fromY none
      let e := { e with grid := g }
      let e := markRegionActive e fromX fromY
      (markRegionActive e toX toY, true)
    | _, _ => (e, false)

/-- `Engine.swapParticles(x1, y1, x2, y2)`: requires both cells occupied. -/
def engSwapParticles (e : Engine) (x1 y1 x2 y2 : Int) : Engine × Bool :=
  if ¬ (inBounds e.width e.height x1 y1 ∧
        inBounds e.width e.height x2 y2) then (e, false)
  else
    match cell e.grid x1 y1, cell e.grid x2 y2 with
    | some p1, some p2 =>
      let q1 := { p2 with x := x1, y := y1, updated := true }
      let q2 := { p1 with x := x2, y := y2, updated := true }
      let g := setCell e.grid x1 y1 (some q1)
      let g := setCell g x2 y2 (some q2)
      let e := { e with grid := g }
      let e := markRegionActive e x1 y1
      (markRegionActive e x2 y2, true)
    | _, _ => (e, false)

/-- `Engine.changeParticleType(x, y, newType)`: replaces an existing particle
by a freshly created one of the new type (marked `updated`); fails without a
change for an empty cell, out-of-bounds coordinates or an unknown type. -/
def engChangeParticleType (e : Engine) (x y : Int) (newType : String)
    (rng : Rng) : Engine × Bool × Rng :=
  if ¬ inBounds e.width e.height x y then (e, false, rng)
  else
    match cell e.grid x y with
    | some _ =>
      match particlesCreate newType x y rng with
      | (some newParticle, rng) =>
        let g := setCell e.grid x y (some { newParticle with updated := true })
        let e := { e with grid := g }
        (markRegionActive e x y, true, rng)
      | (none, rng) => (e, false, rng)
    | none => (e, false, rng)

/-! ### History manager (src/js/renderer.js, `Engine`) -/

/-- The snapshot entry stored by `Engine.exportCompressedState` for the
particle at `(x, y)`. -/
def expEntry (x y : Int) (particle : Particle) : SavedParticle :=
  { x := x, y := y, type := particle.type, life := particle.life,
    burning := particle.burning, corrosion := particle.corrosion }

/-- `Engine.exportCompressedState`: row-major sparse list of the occupied
cells with their type and optional `life`/`burning`/`corrosion`, plus
dimensions and the particle counter. -/
def exportParticles (e : Engine) : List SavedParticle :=
  (List.range e.height.toNat).flatMap
    (fun (y : Nat) =>
      (List.range e.width.toNat).filterMap
        (fun (x : Nat) =>
          (cell e.grid (x : Int) (y : Int)).map
            (expEntry (x : Int) (y : Int))))

def exportCompressedState (e : Engine) : CompressedState :=
  { particles := exportParticles e,
    width := e.width, height := e.height, count := e.particleCount }

/-- The particle object literal built by `Engine.importCompressedState` for a
snapshot entry (no `vx`/`vy`/`colorVariation`). -/
def restoredParticle (p : SavedParticle) : Particle :=
  { type := p.type, x := p.x, y := p.y, updated := false,
    life := p.life, burning := p.burning, corrosion := p.corrosion }

/-- The loop body of `Engine.importCompressedState`: place one stored
particle and mark its region active. -/
def importPlace (e : Engine) (p : SavedParticle) : Engine :=
  let e := { e with grid := setCell e.grid p.x p.y (some (restoredParticle p)) }
  markRegionActive e p.x p.y

/-- `Engine.importCompressedState(state)`: reset the grid (current engine
dimensions), take over the stored count, clear the active set, then place
every stored particle and mark its region active. -/
def importCompressedState (e : Engine) (state : CompressedState) : Engine :=
  let e := { e with grid := createGrid e.width e.height,
                    particleCount := state.count,
                    activeRegions := [] }
  state.particles.foldl importPlace e

/-- `Engine._saveUndoState`: skipped (flag cleared) right after a restore;
otherwise pushes the compressed state, evicts the oldest entry beyond
`maxUndoSteps`, and clears the redo stack. -/
def saveUndoState (e : Engine) : Engine :=
  if e.skipNextUndo then { e with skipNextUndo := false }
  else
    let compressedGrid := exportCompressedState e
    let undoStack := e.undoStack ++ [compressedGrid]
    let undoStack :=
      if e.maxUndoSteps < undoStack.length then undoStack.drop 1
      else undoStack
    { e with undoStack := undoStack, redoStack := [] }

/-- `Engine.undo`. -/
def engUndo (e : Engine) : Engine × Bool :=
  match e.undoStack.getLast? with
  | none => (e, false)
  | some previousState =>
    let currentState := exportCompressedState e
    let e := { e with redoStack := e.redoStack ++ [currentState],
                      undoStack := e.undoStack.dropLast,
                      skipNextUndo := true }
    (importCompressedState e previousState, true)

/-- `Engine.redo`. -/
def engRedo (e : Engine) : Engine × Bool :=
  match e.redoStack.getLast? with
  | none => (e, false)
  | some nextState =>
    let currentState := exportCompressedState e
    let e := { e with undoStack := e.undoStack ++ [currentState],
                      redoStack := e.redoStack.dropLast,
                      skipNextUndo := true }
    (importCompressedState e nextState, true)

/-- `Engine.reset`: save undo state, then empty grid, zero count, clear
active regions. -/
def engReset (e : Engine) : Engine :=
  let e := saveUndoState e
  { e with grid := createGrid e.width e.height, particleCount := 0,
           activeRegions := [] }

/-- The loop body of `Engine.drawElements`: create one particle and count
successes. -/
def drawStep (type : String) (st : Engine × Nat × Rng) (pt : Int × Int) :
    Engine × Nat × Rng :=
  let (e, count, rng) := st
  let (e, created, rng) := engCreateParticle e pt.1 pt.2 type rng
  (e, if created then count + 1 else count, rng)

/-- `Engine.drawElements(type, points)`. -/
def drawElements (e : Engine) (type : String) (points : List (Int × Int))
    (rng : Rng) : Engine × Nat × Rng :=
  let e := saveUndoState e
  points.foldl (drawStep type) (e, 0, rng)

/-- The loop body of `Engine.eraseElements`: remove one particle and count
successes. -/
def eraseStep (st : Engine × Nat) (pt : Int × Int) : Engine × Nat :=
  let (e, count) := st
  let (e, removed) := engRemoveParticle e pt.1 pt.2
  (e, if removed then count + 1 else count)

/-- `Engine.eraseElements(points)`. -/
def eraseElements (e : Engine) (points : List (Int × Int)) : Engine × Nat :=
  let e := saveUndoState e
  points.foldl eraseStep (e, 0)

/-- `Engine.drawLine`. -/
def drawLine (e : Engine) (type : String) (x1 y1 x2 y2 : Int) (rng : Rng) :
    Engine × Nat × Rng :=
  drawElements e type (getLine x1 y1 x2 y2) rng

/-- `Engine.drawRectangle`. -/
def drawRectangle (e : Engine) (type : String) (x1 y1 x2 y2 : Int)
    (filled : Bool) (rng : Rng) : Engine × Nat × Rng :=
  drawElements e type (getRectangle x1 y1 x2 y2 filled) rng

/-- `Engine.drawEllipse` (filled). -/
def drawEllipse (e : Engine) (type : String) (x y radiusX radiusY : Int)
    (rng : Rng) : Engine × Nat × Rng :=
  drawElements e type (getEllipseFilled x y radiusX radiusY) rng

/-- `Engine.drawBrush`. -/
def drawBrush (e : Engine) (type : String) (x y radius : Int) (rng : Rng) :
    Engine × Nat × Rng :=
  let points := getBrushPoints x y radius
  if type = "eraser" then
    let (e, n) := eraseElements e points
    (e, n, rng)
  else drawElements e type points rng

/-! ### Element behaviors (src/unnamed/part_004, `ELEMENTS[*].update`)

A behavior receives the element definition bound to `this` in the source
(`self`), the engine, the particle position and the random stream, and
returns the new engine, the `didChange` flag and the remaining stream.
Behaviors that read `grid[y][x]` without a guard are only ever invoked on
occupied cells by `Engine.update`; the embedding totalizes those reads with a
no-change result on the unreachable empty case. -/

/-- Behavior function type: `update(engine, x, y)` with `this = self`. -/
abbrev BehaviorFn :=
  ElementProps → Engine → Int → Int → Rng → Engine × Bool × Rng

/-- In-place `grid[ny][nx].life = l` (used by the fire behavior on a cell it
just converted, hence occupied). -/
def setLife (e : Engine) (x y : Int) (l : ℚ) : Engine :=
  match cell e.grid x y with
  | some p => { e with grid := setCell e.grid x y (some { p with life := some l }) }
  | none => e

/-- In-place `grid[ny][nx].burning = b` (the fire behavior stores the string
`'wood'` here). -/
def setBurning (e : Engine) (x y : Int) (b : BVal) : Engine :=
  match cell e.grid x y with
  | some p => { e with grid := setCell e.grid x y (some { p with burning := some b }) }
  | none => e

/-- `ELEMENTS['sand'].update`: fall straight down, else try each down
diagonal (random preferred side first), each gated by `spreadChance`. -/
def sandUpdate : BehaviorFn := fun self e x y rng =>
  if e.height - 1 ≤ y then (e, false, rng)
  else if (cell e.grid x (y + 1)).isNone then
    ((engMoveParticle e x y x (y + 1)).1, true, rng)
  else
    let (v, rng) := randNext rng
    let direction : Int := if v < 1/2 then 1 else -1
    let tryOther := fun (e : Engine) (rng : Rng) =>
      if 0 ≤ x - direction ∧ x - direction < e.width ∧
         (cell e.grid (x - direction) (y + 1)).isNone then
        let (w, rng) := randNext rng
        if w < self.spreadChance then
          ((engMoveParticle e x y (x - direction) (y + 1)).1, true, rng)
        else (e, false, rng)
      else (e, false, rng)
    if 0 ≤ x + direction ∧ x + direction < e.width ∧
       (cell e.grid (x + direction) (y + 1)).isNone then
      let (w, rng) := randNext rng
      if w < self.spreadChance then
        ((engMoveParticle e x y (x + direction) (y + 1)).1, true, rng)
      else tryOther e rng
    else tryOther e rng

/-- `ELEMENTS['wall'].update`: never moves. -/
def wallUpdate : BehaviorFn := fun _self e _x _y rng => (e, false, rng)

/-- `ELEMENTS['wood'].update`: never moves. -/
def woodUpdate : BehaviorFn := fun _self e _x _y rng => (e, false, rng)

/-- `ELEMENTS['metal'].update`: never moves. -/
def metalUpdate : BehaviorFn := fun _self e _x _y rng => (e, false, rng)

/-- `ELEMENTS['water'].update`: fall, else both down diagonals (preferred
side first, ungated), else horizontal flow gated once by `dispersion`. -/
def waterUpdate : BehaviorFn := fun self e x y rng =>
  if e.height - 1 ≤ y then (e, false, rng)
  else if (cell e.grid x (y + 1)).isNone then
    ((engMoveParticle e x y x (y + 1)).1, true, rng)
  else
    let (v, rng) := randNext rng
    let flowDirection : Int := if v < 1/2 then 1 else -1
    if 0 ≤ x + flowDirection ∧ x + flowDirection < e.width ∧
       (cell e.grid (x + flowDirection) (y + 1)).isNone then
      ((engMoveParticle e x y (x + flowDirection) (y + 1)).1, true, rng)
    else if 0 ≤ x - flowDirection ∧ x - flowDirection < e.width ∧
       (cell e.grid (x - flowDirection) (y + 1)).isNone then
      ((engMoveParticle e x y (x - flowDirection) (y + 1)).1, true, rng)
    else
      let (w, rng) := randNext rng
      if w < self.dispersion then
        if 0 ≤ x + flowDirection ∧ x + flowDirection < e.width ∧
           (cell e.grid (x + flowDirection) y).isNone then
          ((engMoveParticle e x y (x + flowDirection) y).1, true, rng)
        else if 0 ≤ x - flowDirection ∧ x - flowDirection < e.width ∧
           (cell e.grid (x - flowDirection) y).isNone then
          ((engMoveParticle e x y (x - flowDirection) y).1, true, rng)
        else (e, false, rng)
      else (e, false, rng)

/-- `ELEMENTS['oil'].update`: delegates to the water rule with oil's
properties bound to `this`. -/
def oilUpdate : BehaviorFn := fun self e x y rng => waterUpdate self e x y rng

/-- The dissolve scan of `ELEMENTS['acid'].update` over the 8 neighbors:
`some true` means the acid consumed itself and returned; `none` means the
scan fell through to the water movement rule. -/
def acidDissolveScan (self : ElementProps) (x y : Int) :
    List (Int × Int) → Engine → Rng → Engine × Option Bool × Rng
  | [], e, rng => (e, none, rng)
  | off :: rest, e, rng =>
    let nx := x + off.1
    let ny := y + off.2
    if inBounds e.width e.height nx ny then
      match cell e.grid nx ny with
      | some neighbor =>
        if neighbor.type = "wall" ∨ neighbor.type = "acid" ∨
           neighbor.type = "void" ∨ neighbor.type.startsWith "source" then
          acidDissolveScan self x y rest e rng
        else
          let (v, rng) := randNext rng
          if v < self.corrosionRate then
            let e := (engRemoveParticle e nx ny).1
            let (w, rng) := randNext rng
            if w < 3/10 then ((engRemoveParticle e x y).1, some true, rng)
            else acidDissolveScan self x y rest e rng
          else acidDissolveScan self x y rest e rng
      | none => acidDissolveScan self x y rest e rng
    else acidDissolveScan self x y rest e rng

/-- `ELEMENTS['acid'].update`: dissolve scan, then flow like water. -/
def acidUpdate : BehaviorFn := fun self e x y rng =>
  match acidDissolveScan self x y neighborOffsets e rng with
  | (e, some b, rng) => (e, b, rng)
  | (e, none, rng) => waterUpdate self e x y rng

/-- `ELEMENTS['steam'].update`: 1% dissipation, else rise straight up, else
each up diagonal then horizontal, each gated by `dispersion`. -/
def steamUpdate : BehaviorFn := fun self e x y rng =>
  let (v, rng) := randNext rng
  if v < 1/100 then ((engRemoveParticle e x y).1, true, rng)
  else if y ≤ 0 then (e, false, rng)
  else if (cell e.grid x (y - 1)).isNone then
    ((engMoveParticle e x y x (y - 1)).1, true, rng)
  else
    let (d, rng) := randNext rng
    let direction : Int := if d < 1/2 then 1 else -1
    let tryHoriz := fun (e : Engine) (rng : Rng) =>
      if 0 ≤ x + direction ∧ x + direction < e.width ∧
         (cell e.grid (x + direction) y).isNone then
        let (w, rng) := randNext rng
        if w < self.dispersion then
          ((engMoveParticle e x y (x + direction) y).1, true, rng)
        else (e, false, rng)
      else (e, false, rng)
    let tryOtherDiag := fun (e : Engine) (rng : Rng) =>
      if 0 ≤ x - direction ∧ x - direction < e.width ∧ 0 ≤ y - 1 ∧
         (cell e.grid (x - direction) (y - 1)).isNone then
        let (w, rng) := randNext rng
        if w < self.dispersion then
          ((engMoveParticle e x y (x - direction) (y - 1)).1, true, rng)
        else tryHoriz e rng
      else tryHoriz e rng
    if 0 ≤ x + direction ∧ x + direction < e.width ∧ 0 ≤ y - 1 ∧
       (cell e.grid (x + direction) (y - 1)).isNone then
      let (w, rng) := randNext rng
      if w < self.dispersion then
        ((engMoveParticle e x y (x + direction) (y - 1)).1, true, rng)
      else tryOtherDiag e rng
    else tryOtherDiag e rng

/-- `ELEMENTS['smoke'].update`: lazily initialized countdown `life`,
dissipation probability growing as life runs out, then the steam rule with
smoke's properties bound to `this`. -/
def smokeUpdate : BehaviorFn := fun self e x y rng =>
  match cell e.grid x y with
  | none => (e, false, rng)
  | some particle =>
    let life0 := if jsFalsyQ particle.life then self.lifespanScalar
                 else particle.life.getD 0
    let life1 := life0 - 1
    let e := { e with grid := setCell e.grid x y (some { particle with life := some life1 }) }
    if life1 ≤ 0 then ((engRemoveParticle e x y).1, true, rng)
    else
      let (v, rng) := randNext rng
      if v < (1 - life1 / self.lifespanScalar) * (1/20) then
        ((engRemoveParticle e x y).1, true, rng)
      else steamUpdate self e x y rng

/-- The horizontal-movement tail of `ELEMENTS['fire'].update`. -/
def fireHoriz (e : Engine) (x y : Int) (rng : Rng) : Engine × Bool × Rng :=
  let (v, rng) := randNext rng
  let moveX := x + (if v < 1/2 then (1 : Int) else -1)
  if 0 ≤ moveX ∧ moveX < e.width ∧ (cell e.grid moveX y).isNone then
    let (w, rng) := randNext rng
    if w < 3/10 then ((engMoveParticle e x y moveX y).1, true, rng)
    else (e, false, rng)
  else (e, false, rng)

/-- The neighbor loop of `ELEMENTS['fire'].update` (the source loop does not
skip the center cell): flammable neighbors may ignite (keeping the old type
in `burning` for wood), a water neighbor becomes steam (70%) or is removed
and extinguishes this fire, returning `true` immediately. -/
def fireNeighborLoop (self : ElementProps) (x y : Int) :
    List (Int × Int) → Engine → Rng → Engine × Bool × Rng
  | [], e, rng => (e, false, rng)
  | off :: rest, e, rng =>
    let nx := x + off.1
    let ny := y + off.2
    if inBounds e.width e.height nx ny then
      match cell e.grid nx ny with
      | some neighbor =>
        let (e, rng) :=
          match List.lookup neighbor.type ELEMENTS with
          | some elemType =>
            if elemType.flammable then
              let (v, rng) := randNext rng
              if v < elemType.flammability then
                let (e, _, rng) := engChangeParticleType e nx ny "fire" rng
                let (l, rng) := randomInt self.lifespanMin self.lifespanMax rng
                let e := setLife e nx ny (l : ℚ)
                let e := if neighbor.type = "wood" then
                    setBurning e nx ny (.str "wood") else e
                (e, rng)
              else (e, rng)
            else (e, rng)
          | none => (e, rng)
        if neighbor.type = "water" then
          let (v, rng) := randNext rng
          let (e, rng) :=
            if v < 7/10 then
              let (e, _, rng) := engChangeParticleType e nx ny "steam" rng
              (e, rng)
            else ((engRemoveParticle e nx ny).1, rng)
          ((engRemoveParticle e x y).1, true, rng)
        else fireNeighborLoop self x y rest e rng
      | none => fireNeighborLoop self x y rest e rng
    else fireNeighborLoop self x y rest e rng

/-- `ELEMENTS['fire'].update`. -/
def fireUpdate : BehaviorFn := fun self e x y rng =>
  match cell e.grid x y with
  | none => (e, false, rng)
  | some particle =>
    let (life0, rng) :=
      if jsFalsyQ particle.life then
        let (l, rng) := randomInt self.lifespanMin self.lifespanMax rng
        ((l : ℚ), rng)
      else (particle.life.getD 0, rng)
    let life1 := life0 - 1
    let e := { e with grid := setCell e.grid x y (some { particle with life := some life1 }) }
    if life1 ≤ 0 then
      let (v, rng) := randNext rng
      if v < 1/2 then
        let (e, _, rng) := engChangeParticleType e x y "smoke" rng
        (e, true, rng)
      else ((engRemoveParticle e x y).1, true, rng)
    else
      match fireNeighborLoop self x y fullOffsets e rng with
      | (e, true, rng) => (e, true, rng)
      | (e, false, rng) =>
        if 0 < y ∧ (cell e.grid x (y - 1)).isNone then
          let (v, rng) := randNext rng
          if v < 2/5 then ((engMoveParticle e x y x (y - 1)).1, true, rng)
          else fireHoriz e x y rng
        else fireHoriz e x y rng

/-- The neighbor loop of `ELEMENTS['spark'].update`: collects the occupied
conductive neighbor cells in scan order and ignites flammable neighbors with
probability `flammability * 2`. -/
def sparkCollect (x y : Int) :
    List (Int × Int) → Engine → Rng → List (Int × Int) →
    Engine × List (Int × Int) × Rng
  | [], e, rng, acc => (e, acc, rng)
  | off :: rest, e, rng, acc =>
    let nx := x + off.1
    let ny := y + off.2
    if inBounds e.width e.height nx ny then
      match cell e.grid nx ny with
      | some neighbor =>
        match List.lookup neighbor.type ELEMENTS with
        | some elemType =>
          let acc := if elemType.conductive then acc ++ [(nx, ny)] else acc
          if elemType.flammable then
            let (v, rng) := randNext rng
            if v < elemType.flammability * 2 then
              let (e, _, rng) := engChangeParticleType e nx ny "fire" rng
              sparkCollect x y rest e rng acc
            else sparkCollect x y rest e rng acc
          else sparkCollect x y rest e rng acc
        | none => sparkCollect x y rest e rng acc
      | none => sparkCollect x y rest e rng acc
    else sparkCollect x y rest e rng acc

/-- The random single-step walk tail of `ELEMENTS['spark'].update`. -/
def sparkWalk (e : Engine) (x y : Int) (rng : Rng) : Engine × Bool × Rng :=
  let (dir, rng) := randomInt 0 7 rng
  let dxs : List Int := [0, 1, 1, 1, 0, -1, -1, -1]
  let dys : List Int := [-1, -1, 0, 1, 1, 1, 0, -1]
  let nx := x + dxs.getD dir.toNat 0
  let ny := y + dys.getD dir.toNat 0
  if inBounds e.width e.height nx ny ∧ (cell e.grid nx ny).isNone then
    ((engMoveParticle e x y nx ny).1, true, rng)
  else (e, false, rng)

/-- `ELEMENTS['spark'].update`. -/
def sparkUpdate : BehaviorFn := fun self e x y rng =>
  match cell e.grid x y with
  | none => (e, false, rng)
  | some particle =>
    let (life0, rng) :=
      if jsFalsyQ particle.life then
        let (l, rng) := randomInt self.lifespanMin self.lifespanMax rng
        ((l : ℚ), rng)
      else (particle.life.getD 0, rng)
    let life1 := life0 - 1
    let e := { e with grid := setCell e.grid x y (some { particle with life := some life1 }) }
    if life1 ≤ 0 then ((engRemoveParticle e x y).1, true, rng)
    else
      let (e, conductiveNeighbors, rng) :=
        sparkCollect x y neighborOffsets e rng []
      if 0 < conductiveNeighbors.length then
        let (v, rng) := randNext rng
        if v < 7/10 then
          let (c, rng) := randomElement conductiveNeighbors rng
          ((engMoveParticle e x y c.1 c.2).1, true, rng)
        else sparkWalk e x y rng
      else sparkWalk e x y rng

/-- The JS `directions.sort(() => Math.random() - 0.5)` of the source
elements.  The result order of a sort with a random comparator is
implementation defined; it is modelled as an insertion sort drawing one
stream value per comparison and placing the inserted element in front when
`v - 0.5 < 0`.  No claim depends on the resulting order. -/
def jsRandomInsert (a : Int × Int) :
    List (Int × Int) → Rng → List (Int × Int) × Rng
  | [], rng => ([a], rng)
  | b :: rest, rng =>
    let (v, rng) := randNext rng
    if v - 1/2 < 0 then (a :: b :: rest, rng)
    else
      let (l, rng) := jsRandomInsert a rest rng
      (b :: l, rng)

/-- Insertion sort with the random comparator (see `jsRandomInsert`). -/
def jsRandomSort : List (Int × Int) → Rng → List (Int × Int) × Rng
  | [], rng => ([], rng)
  | a :: rest, rng =>
    let (l, rng) := jsRandomSort rest rng
    jsRandomInsert a l rng

/-- The emission loop of `ELEMENTS['source-water'].update`: first empty
in-bounds direction receives a new particle of the configured type. -/
def sourceEmit (self : ElementProps) (x y : Int) :
    List (Int × Int) → Engine → Rng → Engine × Bool × Rng
  | [], e, rng => (e, false, rng)
  | d :: rest, e, rng =>
    let nx := x + d.1
    let ny := y + d.2
    if inBounds e.width e.height nx ny ∧ (cell e.grid nx ny).isNone then
      let (e, _, rng) := engCreateParticle e nx ny self.emitType rng
      (e, true, rng)
    else sourceEmit self x y rest e rng

/-- `ELEMENTS['source-water'].update`. -/
def sourceWaterUpdate : BehaviorFn := fun self e x y rng =>
  let (v, rng) := randNext rng
  if v < self.emitRate then
    let directions : List (Int × Int) := [(0, 1), (1, 0), (0, -1), (-1, 0)]
    let (directions, rng) := jsRandomSort directions rng
    sourceEmit self x y directions e rng
  else (e, false, rng)

/-- `ELEMENTS['source-sand'].update`: the water-source rule with the sand
source's properties bound to `this` (the source clones `this` to keep its
`emitType`). -/
def sourceSandUpdate : BehaviorFn := fun self e x y rng =>
  sourceWaterUpdate self e x y rng

/-- Offsets of the void deletion square of the given radius in loop order,
center excluded. -/
def voidOffsets (r : Int) : List (Int × Int) :=
  (intRange (-r) r).flatMap
    (fun dy =>
      (intRange (-r) r).filterMap
        (fun dx => if dx = 0 ∧ dy = 0 then none else some (dx, dy)))

/-- `ELEMENTS['void'].update`: deletes every non-void, non-source particle
within its radius and reports whether anything was deleted. -/
def voidUpdate : BehaviorFn := fun self e x y rng =>
  let step := fun (st : Engine × Bool) (off : Int × Int) =>
    let (e, deleted) := st
    let nx := x + off.1
    let ny := y + off.2
    if inBounds e.width e.height nx ny then
      match cell e.grid nx ny with
      | some target =>
        if target.type = "void" ∨ target.type.startsWith "source" then
          (e, deleted)
        else ((engRemoveParticle e nx ny).1, true)
      | none => (e, deleted)
    else (e, deleted)
  let (e, deleted) := (voidOffsets self.voidRadius).foldl step (e, false)
  (e, deleted, rng)

/-- Behavior dispatch by element type name; the default branch is
unreachable because `Engine.update` invokes a behavior only after a
successful registry lookup. -/
def elemBehavior (type : String) : BehaviorFn :=
  match type with
  | "sand" => sandUpdate
  | "wall" => wallUpdate
  | "wood" => woodUpdate
  | "metal" => metalUpdate
  | "water" => waterUpdate
  | "oil" => oilUpdate
  | "acid" => acidUpdate
  | "steam" => steamUpdate
  | "smoke" => smokeUpdate
  | "fire" => fireUpdate
  | "spark" => sparkUpdate
  | "source-water" => sourceWaterUpdate
  | "source-sand" => sourceSandUpdate
  | "void" => voidUpdate
  | _ => fun _self e _x _y rng => (e, false, rng)

/-! ### Interaction resolver (src/js/renderer.js, `Interactions`) -/

/-- A reaction function `(engine, x1, y1, x2, y2)` with the random stream
threaded through. -/
abbrev ReactionFn :=
  Engine → Int → Int → Int → Int → Rng → Engine × Bool × Rng

/-- `REACTIONS['water+fire']`: 70% water becomes steam; the fire is always
removed; always fires. -/
def reactWaterFire : ReactionFn := fun e waterX waterY fireX fireY rng =>
  let (v, rng) := randNext rng
  let (e, rng) :=
    if v < 7/10 then
      let (e, _, rng) := engChangeParticleType e waterX waterY "steam" rng
      (e, rng)
    else (e, rng)
  ((engRemoveParticle e fireX fireY).1, true, rng)

/-- `REACTIONS['oil+fire']`: the oil always ignites and gets a fresh random
fire lifespan. -/
def reactOilFire : ReactionFn := fun e oilX oilY _fireX _fireY rng =>
  let (e, _, rng) := engChangeParticleType e oilX oilY "fire" rng
  let (fireLife, rng) := randomInt fireProps.lifespanMin fireProps.lifespanMax rng
  (setLife e oilX oilY (fireLife : ℚ), true, rng)

/-- `REACTIONS['water+acid']`: 25% the acid is removed. -/
def reactWaterAcid : ReactionFn := fun e _waterX _waterY acidX acidY rng =>
  let (v, rng) := randNext rng
  if v < 1/4 then ((engRemoveParticle e acidX acidY).1, true, rng)
  else (e, false, rng)

/-- `REACTIONS['acid+metal']`: the metal's corrosion accumulator (0 when
absent or falsy) gains 0.1; at `>= 1` the metal is removed and the acid is
also removed with probability 0.3, firing; below the threshold nothing else
happens and the reaction does not fire.  The source reads
`engine.grid[metalY][metalX]` unguarded; the reaction is only dispatched on
occupied cells, and the embedding totalizes the empty case as no effect. -/
def reactAcidMetal : ReactionFn := fun e acidX acidY metalX metalY rng =>
  match cell e.grid metalX metalY with
  | none => (e, false, rng)
  | some metal =>
    let corrosion0 := if jsFalsyQ metal.corrosion then 0
                      else metal.corrosion.getD 0
    let corrosion1 := corrosion0 + 1/10
    let g := setCell e.grid metalX metalY
      (some { metal with corrosion := some corrosion1 })
    let e := { e with grid := g }
    if 1 ≤ corrosion1 then
      let e := (engRemoveParticle e metalX metalY).1
      let (v, rng) := randNext rng
      let e := if v < 3/10 then (engRemoveParticle e acidX acidY).1 else e
      (e, true, rng)
    else (e, false, rng)

/-- `REACTIONS['acid+sand']`: 4% the sand is removed, and then 20% the acid
is also consumed. -/
def reactAcidSand : ReactionFn := fun e acidX acidY sandX sandY rng =>
  let (v, rng) := randNext rng
  if v < 1/25 then
    let e := (engRemoveParticle e sandX sandY).1
    let (w, rng) := randNext rng
    let e := if w < 1/5 then (engRemoveParticle e acidX acidY).1 else e
    (e, true, rng)
  else (e, false, rng)

/-- `REACTIONS['water+steam']`: 30% the steam is absorbed. -/
def reactWaterSteam : ReactionFn := fun e _waterX _waterY steamX steamY rng =>
  let (v, rng) := randNext rng
  if v < 3/10 then ((engRemoveParticle e steamX steamY).1, true, rng)
  else (e, false, rng)

/-- `REACTIONS['water+oil']`: when the water is strictly above the oil they
swap. -/
def reactWaterOil : ReactionFn := fun e waterX waterY oilX oilY rng =>
  if waterY < oilY then
    ((engSwapParticles e waterX waterY oilX oilY).1, true, rng)
  else (e, false, rng)

/-- `REACTIONS['fire+wood']`: the wood's burning accumulator gains 1 (JS
semantics: string values concatenate); at `>= 100` the wood becomes fire
with a fresh lifespan, 40% emitting smoke above if empty, firing;
otherwise 5% a new fire particle is spawned above the wood if empty, also
firing.  The unguarded `grid[woodY][woodX]` read is totalized like
`reactAcidMetal`. -/
def reactFireWood : ReactionFn := fun e _fireX _fireY woodX woodY rng =>
  match cell e.grid woodX woodY with
  | none => (e, false, rng)
  | some wood =>
    let burning0 : BVal :=
      if jsFalsyB wood.burning then .num 0 else wood.burning.getD (.num 0)
    let burning1 := burning0.incr
    let g := setCell e.grid woodX woodY
      (some { wood with burning := some burning1 })
    let e := { e with grid := g }
    if burning1.ge100 then
      let (e, _, rng) := engChangeParticleType e woodX woodY "fire" rng
      let (l, rng) := randomInt fireProps.lifespanMin fireProps.lifespanMax rng
      let e := setLife e woodX woodY (l : ℚ)
      let (v, rng) := randNext rng
      if v < 2/5 ∧ 0 < woodY ∧ (cell e.grid woodX (woodY - 1)).isNone then
        let (e, _, rng) := engCreateParticle e woodX (woodY - 1) "smoke" rng
        (e, true, rng)
      else (e, true, rng)
    else
      let (v, rng) := randNext rng
      if v < 1/20 ∧ 0 < woodY ∧ (cell e.grid woodX (woodY - 1)).isNone then
        let (e, _, rng) := engCreateParticle e woodX (woodY - 1) "fire" rng
        (e, true, rng)
      else (e, false, rng)

/-- `REACTIONS['spark+metal']`: collect the empty in-bounds cells around the
metal; with any exits 70% the spark is removed at its origin and recreated
at a random exit, firing; otherwise the spark loses one life point (when it
has a truthy `life`) and the reaction does not fire. -/
def reactSparkMetal : ReactionFn := fun e sparkX sparkY metalX metalY rng =>
  let exitPoints :=
    neighborOffsets.foldl
      (fun acc off =>
        let nx := metalX + off.1
        let ny := metalY + off.2
        if inBounds e.width e.height nx ny ∧ (cell e.grid nx ny).isNone then
          acc ++ [(nx, ny)]
        else acc)
      []
  let jump := fun (rng : Rng) =>
    let (v, rng) := randNext rng
    (decide (v < 7/10), rng)
  if 0 < exitPoints.length then
    let (go, rng) := jump rng
    if go then
      let (c, rng) := randomElement exitPoints rng
      let e := (engRemoveParticle e sparkX sparkY).1
      let (e, _, rng) := engCreateParticle e c.1 c.2 "spark" rng
      (e, true, rng)
    else
      let e :=
        match cell e.grid sparkX sparkY with
        | some spark =>
          if jsFalsyQ spark.life then e
          else setLife e sparkX sparkY (spark.life.getD 0 - 1)
        | none => e
      (e, false, rng)
  else
    let e :=
      match cell e.grid sparkX sparkY with
      | some spark =>
        if jsFalsyQ spark.life then e
        else setLife e sparkX sparkY (spark.life.getD 0 - 1)
      | none => e
    (e, false, rng)

/-- `REACTIONS['spark+oil']`: 80% the oil ignites with a fresh lifespan. -/
def reactSparkOil : ReactionFn := fun e _sparkX _sparkY oilX oilY rng =>
  let (v, rng) := randNext rng
  if v < 4/5 then
    let (e, _, rng) := engChangeParticleType e oilX oilY "fire" rng
    let (l, rng) := randomInt fireProps.lifespanMin fireProps.lifespanMax rng
    (setLife e oilX oilY (l : ℚ), true, rng)
  else (e, false, rng)

/-- `REACTIONS['fire+oil']`: delegates to the spark+oil reaction. -/
def reactFireOil : ReactionFn := fun e fireX fireY oilX oilY rng =>
  reactSparkOil e fireX fireY oilX oilY rng

/-- `REACTIONS['acid+wall']`: the wall is immune; never fires. -/
def reactAcidWall : ReactionFn := fun e _ _ _ _ rng => (e, false, rng)

/-- `REACTIONS['steam+fire']`: 40% the steam is removed. -/
def reactSteamFire : ReactionFn := fun e steamX steamY _fireX _fireY rng =>
  let (v, rng) := randNext rng
  if v < 2/5 then ((engRemoveParticle e steamX steamY).1, true, rng)
  else (e, false, rng)

/-- The interaction table `Interactions.REACTIONS`, keyed by
`'typeA+typeB'`. -/
def REACTIONS : List (String × ReactionFn) :=
  [("water+fire", reactWaterFire), ("oil+fire", reactOilFire),
   ("water+acid", reactWaterAcid), ("acid+metal", reactAcidMetal),
   ("acid+sand", reactAcidSand), ("water+steam", reactWaterSteam),
   ("water+oil", reactWaterOil), ("fire+wood", reactFireWood),
   ("spark+metal", reactSparkMetal), ("spark+oil", reactSparkOil),
   ("fire+oil", reactFireOil), ("acid+wall", reactAcidWall),
   ("steam+fire", reactSteamFire)]

/-- `Interactions.processInteraction(engine, x1, y1, x2, y2)`: requires both
cells occupied, looks the pair key up in both orders, and invokes the found
reaction with the found key's argument order. -/
def processInteraction (e : Engine) (x1 y1 x2 y2 : Int) (rng : Rng) :
    Engine × Bool × Rng :=
  match cell e.grid x1 y1, cell e.grid x2 y2 with
  | some p1, some p2 =>
    match List.lookup (p1.type ++ "+" ++ p2.type) REACTIONS with
    | some reaction1 => reaction1 e x1 y1 x2 y2 rng
    | none =>
      match List.lookup (p2.type ++ "+" ++ p1.type) REACTIONS with
      | some reaction2 => reaction2 e x2 y2 x1 y1 rng
      | none => (e, false, rng)
  | _, _ => (e, false, rng)

/-- The neighbor scan of `Interactions.processParticleInteractions`:
occupied in-bounds neighbors are tried in loop order and the first reaction
that fires ends the scan. -/
def interactionScan (x y : Int) :
    List (Int × Int) → Engine → Rng → Engine × Bool × Rng
  | [], e, rng => (e, false, rng)
  | off :: rest, e, rng =>
    let nx := x + off.1
    let ny := y + off.2
    if inBounds e.width e.height nx ny ∧ (cell e.grid nx ny).isSome then
      let (e, fired, rng) := processInteraction e x y nx ny rng
      if fired then (e, true, rng)
      else interactionScan x y rest e rng
    else interactionScan x y rest e rng

/-- `Interactions.processParticleInteractions(engine, x, y)`. -/
def processParticleInteractions (e : Engine) (x y : Int) (rng : Rng) :
    Engine × Bool × Rng :=
  if (cell e.grid x y).isNone then (e, false, rng)
  else interactionScan x y neighborOffsets e rng

/-! ### Update scheduler (src/js/renderer.js, `Engine.update` and the
`_get*Order` helpers)

The full-scan branches are embedded loop for loop: an inner `for x` loop of
`count` pushes as `rowAsc`/`colAsc`, and the outer loop as recursion over
the row (column) counter in the source's direction. -/

/-- The inner `for (x = 0; x < width; x++) push([x, y])` loop. -/
def rowAsc (y : Int) : Nat → List (Int × Int)
  | 0 => []
  | n + 1 => rowAsc y n ++ [((n : Int), y)]

/-- The inner `for (y = 0; y < height; y++) push([x, y])` loop. -/
def colAsc (x : Int) : Nat → List (Int × Int)
  | 0 => []
  | n + 1 => colAsc x n ++ [(x, (n : Int))]

/-- The outer `for (y = height - 1; y >= 0; y--)` loop of
`_getBottomToTopOrder`'s full scan. -/
def downScanLoop (w : Nat) : Nat → List (Int × Int)
  | 0 => []
  | n + 1 => rowAsc (n : Int) w ++ downScanLoop w n

/-- The outer `for (y = 0; y < height; y++)` loop of
`_getTopToBottomOrder`'s full scan. -/
def upScanLoop (w : Nat) : Nat → List (Int × Int)
  | 0 => []
  | n + 1 => upScanLoop w n ++ rowAsc (n : Int) w

/-- The outer `for (x = 0; x < width; x++)` loop of
`_getLeftToRightOrder`'s full scan. -/
def leftScanLoop (h : Nat) : Nat → List (Int × Int)
  | 0 => []
  | n + 1 => leftScanLoop h n ++ colAsc (n : Int) h

/-- The outer `for (x = width - 1; x >= 0; x--)` loop of
`_getRightToLeftOrder`'s full scan. -/
def rightScanLoop (h : Nat) : Nat → List (Int × Int)
  | 0 => []
  | n + 1 => colAsc (n : Int) h ++ rightScanLoop h n

/-- The condition shared by every `_get*Order` helper: process only the
active regions when there are any and this is not a multiple-of-5 tick. -/
def activeOnlyTick (e : Engine) : Prop :=
  0 < e.activeRegions.length ∧ e.updateCount % 5 ≠ 0

instance (e : Engine) : Decidable (activeOnlyTick e) := by
  unfold activeOnlyTick; infer_instance

/-- `Engine._getBottomToTopOrder`. -/
def getBottomToTopOrder (e : Engine) : List (Int × Int) :=
  if activeOnlyTick e then e.activeRegions
  else downScanLoop e.width.toNat e.height.toNat

/-- `Engine._getTopToBottomOrder`. -/
def getTopToBottomOrder (e : Engine) : List (Int × Int) :=
  if activeOnlyTick e then e.activeRegions
  else upScanLoop e.width.toNat e.height.toNat

/-- `Engine._getLeftToRightOrder`. -/
def getLeftToRightOrder (e : Engine) : List (Int × Int) :=
  if activeOnlyTick e then e.activeRegions
  else leftScanLoop e.height.toNat e.width.toNat

/-- `Engine._getRightToLeftOrder`. -/
def getRightToLeftOrder (e : Engine) : List (Int × Int) :=
  if activeOnlyTick e then e.activeRegions
  else rightScanLoop e.height.toNat e.width.toNat

/-- JS array element swap `[a[i], a[j]] = [a[j], a[i]]`, a no-op when an
index is out of range. -/
def listSwap (l : List (Int × Int)) (i j : Nat) : List (Int × Int) :=
  match l.get? i, l.get? j with
  | some a, some b => (l.set i b).set j a
  | _, _ => l

/-- The Fisher–Yates loop
`for (i = len - 1; i > 0; i--) { j = floor(rand * (i + 1)); swap(i, j) }`;
the first argument of each step is the current index `i`. -/
def shuffleLoop : Nat → List (Int × Int) → Rng → List (Int × Int) × Rng
  | 0, l, rng => (l, rng)
  | i + 1, l, rng =>
    let (v, rng) := randNext rng
    let j := (Rat.floor (v * ((i : ℚ) + 2))).toNat
    shuffleLoop i (listSwap l (i + 1) j) rng

/-- A full JS shuffle of a coordinate array. -/
def jsShuffle (l : List (Int × Int)) (rng : Rng) : List (Int × Int) × Rng :=
  shuffleLoop (l.length - 1) l rng

/-- `Engine._getRandomOrder`: the active set (or the full row-major grid)
shuffled. -/
def getRandomOrder (e : Engine) (rng : Rng) : List (Int × Int) × Rng :=
  if activeOnlyTick e then jsShuffle e.activeRegions rng
  else jsShuffle (upScanLoop e.width.toNat e.height.toNat) rng

/-- The gravity dispatch of `Engine.update` that picks this tick's visit
order. -/
def computeUpdateOrder (e : Engine) (rng : Rng) : List (Int × Int) × Rng :=
  if e.gravity = "down" then (getBottomToTopOrder e, rng)
  else if e.gravity = "up" then (getTopToBottomOrder e, rng)
  else if e.gravity = "left" then (getLeftToRightOrder e, rng)
  else if e.gravity = "right" then (getRightToLeftOrder e, rng)
  else getRandomOrder e rng

/-- The `updated = false` reset at the start of `Engine.update`. -/
def resetUpdatedFlags (g : Grid) : Grid :=
  g.map (fun row => row.map (fun c => c.map (fun p => { p with updated := false })))

/-- The per-tick fold state of `Engine.update`: engine, the
`newActiveRegions` set, the `updatedCount` counter and the random stream. -/
abbrev UpdState := Engine × List (Int × Int) × Nat × Rng

/-- The body of the per-coordinate loop in `Engine.update`: skip empty or
already updated cells and unknown types; mark the particle updated; run the
interaction resolver, and only when no interaction fired run the element
behavior; mark the 3×3 region (into `newActiveRegions`) after a change;
prune dormant non-special statics from the current active set. -/
def updateStep (st : UpdState) (c : Int × Int) : UpdState :=
  let (e, newActive, count, rng) := st
  let (x, y) := c
  match cell e.grid x y with
  | none => st
  | some particle =>
    if particle.updated then st
    else
      match List.lookup particle.type ELEMENTS with
      | none => st
      | some elementType =>
        let e := { e with grid := setCell e.grid x y (some { particle with updated := true }) }
        let count := count + 1
        let (e, fired, rng) := processParticleInteractions e x y rng
        if fired then
          (e, markRegion e.width e.height x y newActive, count, rng)
        else
          let (e, changed, rng) := elemBehavior particle.type elementType e x y rng
          let newActive :=
            if changed then markRegion e.width e.height x y newActive
            else newActive
          let e :=
            if elementType.static ∧ (x, y) ∈ e.activeRegions ∧
               elementType.state ≠ "special" then
              { e with activeRegions := e.activeRegions.filter (fun c => c ≠ (x, y)) }
            else e
          (e, newActive, count, rng)

/-- `Engine.update`: one simulation tick.  Returns the updated engine, the
number of particles processed, and the remaining random stream. -/
def engUpdate (e : Engine) (rng : Rng) : Engine × Nat × Rng :=
  if ¬ e.active then (e, 0, rng)
  else
    let e := { e with grid := resetUpdatedFlags e.grid }
    let (updateOrder, rng) := computeUpdateOrder e rng
    let (e, newActive, updatedCount, rng) :=
      updateOrder.foldl updateStep (e, ([] : List (Int × Int)), 0, rng)
    let e := { e with activeRegions := newActive.foldl setAdd e.activeRegions }
    ({ e with updateCount := e.updateCount + 1 }, updatedCount, rng)

/-! ### Well-formedness and basic grid lemmas -/

/-- A grid has the stated dimensions: `height` rows of `width` cells. -/
def WFGrid (g : Grid) (width height : Int) : Prop :=
  g.length = height.toNat ∧ ∀ row ∈ g, row.length = width.toNat

/-- An engine whose grid matches its dimension fields. -/
def WF (e : Engine) : Prop := WFGrid e.grid e.width e.height

/-- A defaulted read of an in-range index hits a list member. -/
theorem getD_mem {α : Type} (l : List α) (n : Nat) (d : α)
    (h : n < l.length) : l.getD n d ∈ l := by
  rw [List.getD_eq_getElem?_getD, List.getElem?_eq_getElem h]
  exact List.getElem_mem h

/-- `getD` after `set`: the new value exactly at an in-range hit index. -/
theorem getD_set {α : Type} (l : List α) (m n : Nat) (a d : α) :
    (l.set m a).getD n d = if m = n ∧ m < l.length then a else l.getD n d := by
  by_cases hmn : m = n
  · subst hmn
    by_cases hm : m < l.length
    · simp [List.getD_eq_getElem?_getD, List.getElem?_set, hm]
    · have h1 : l[m]? = none := List.getElem?_eq_none (by omega)
      have h2 : ¬ (m = m ∧ m < l.length) := fun hc => hm hc.2
      simp [List.getD_eq_getElem?_getD, List.getElem?_set, hm, h1, h2]
  · have h2 : ¬ (m = n ∧ m < l.length) := fun hc => hmn hc.1
    simp [List.getD_eq_getElem?_getD, List.getElem?_set, hmn, h2]

/-- `getD` of `replicate`. -/
theorem getD_replicate {α : Type} (n i : Nat) (a d : α) :
    (List.replicate n a).getD i d = if i < n then a else d := by
  rw [List.getD_eq_getElem?_getD, List.getElem?_replicate]
  by_cases h : i < n <;> simp [h]

/-- Reading any cell of a freshly created grid gives an empty cell. -/
theorem cell_createGrid (width height : Int) (x y : Int) :
    cell (createGrid width height) x y = none := by
  unfold cell createGrid
  rw [getD_replicate]
  by_cases h : y.toNat < height.toNat
  · rw [if_pos h, getD_replicate]
    by_cases hx : x.toNat < width.toNat <;> simp [hx]
  · rw [if_neg h]
    rfl

/-- The master cell/setCell interaction lemma. -/
theorem cell_setCell (g : Grid) (x y : Int) (v : Option Particle)
    (u w : Int) :
    cell (setCell g x y v) u w =
      if y.toNat = w.toNat ∧ y.toNat < g.length ∧ x.toNat = u.toNat ∧
         x.toNat < (g.getD y.toNat []).length then v
      else cell g u w := by
  unfold cell setCell
  rw [getD_set]
  by_cases hy : y.toNat = w.toNat ∧ y.toNat < g.length
  · rw [if_pos hy, getD_set]
    by_cases hx : x.toNat = u.toNat ∧ x.toNat < (g.getD y.toNat []).length
    · rw [if_pos hx, if_pos ⟨hy.1, hy.2, hx.1, hx.2⟩]
    · rw [if_neg hx, if_neg (fun hc => hx ⟨hc.2.2.1, hc.2.2.2⟩)]
      rw [hy.1]
  · rw [if_neg hy, if_neg (fun hc => hy ⟨hc.1, hc.2.1⟩)]

/-- Reading back the written cell (under bounds and well-formedness). -/
theorem cell_setCell_self (g : Grid) (width height x y : Int)
    (v : Option Particle) (hWF : WFGrid g width height)
    (h : inBounds width height x y) :
    cell (setCell g x y v) x y = v := by
  rcases hWF with ⟨hlen, hrow⟩
  rcases h with ⟨hx0, hxw, hy0, hyh⟩
  rw [cell_setCell]
  rw [if_pos]
  refine ⟨rfl, ?_, rfl, ?_⟩
  · rw [hlen]; omega
  · have hmem : g.getD y.toNat [] ∈ g := by
      apply getD_mem
      rw [hlen]; omega
    rw [hrow _ hmem]; omega

/-- Reading another cell after a write (coordinates differing as indices). -/
theorem cell_setCell_ne (g : Grid) (x y : Int) (v : Option Particle)
    (u w : Int) (h : ¬ (x.toNat = u.toNat ∧ y.toNat = w.toNat)) :
    cell (setCell g x y v) u w = cell g u w := by
  rw [cell_setCell]
  rw [if_neg]
  intro hcon
  exact h ⟨hcon.2.2.1, hcon.1⟩

/-- `setCell` preserves grid dimensions. -/
theorem WFGrid_setCell (g : Grid) (width height x y : Int)
    (v : Option Particle) (hWF : WFGrid g width height) :
    WFGrid (setCell g x y v) width height := by
  rcases hWF with ⟨hlen, hrow⟩
  rcases Nat.lt_or_ge y.toNat g.length with hy | hy
  · refine ⟨by simp [setCell, hlen], ?_⟩
    intro row hmem
    rcases List.mem_or_eq_of_mem_set hmem with h | h
    · exact hrow _ h
    · subst h
      rw [List.length_set]
      exact hrow _ (getD_mem g y.toNat [] hy)
  · have : setCell g x y v = g := by
      unfold setCell
      exact List.set_eq_of_length_le hy
    rw [this]
    exact ⟨hlen, hrow⟩

/-- A fresh grid is well-formed. -/
theorem WFGrid_createGrid (width height : Int) :
    WFGrid (createGrid width height) width height := by
  constructor
  · simp [createGrid]
  · intro row hmem
    simp [createGrid] at hmem
    simp [hmem]

/-! ### C10: update on an inactive engine -/

/-- C10: calling `Engine.update` while `active` is false returns 0 and
leaves the whole engine state — grid, particles, `particleCount`, active
regions and `updateCount` — exactly unchanged. -/
theorem update_inactive_noop (e : Engine) (rng : Rng) (h : e.active = false) :
    engUpdate e rng = (e, 0, rng) := by
  unfold engUpdate
  rw [if_pos (by simp [h])]

/-- A concrete paused engine. -/
def pausedEngine : Engine := { mkEngine 2 2 with active := false }

/-- Witness for C10 at a concrete paused engine and stream. -/
theorem update_inactive_noop_witness :
    pausedEngine.active = false ∧
      engUpdate pausedEngine [1/2] = (pausedEngine, 0, [1/2]) :=
  ⟨rfl, update_inactive_noop pausedEngine [1/2] rfl⟩

/-! ### C6: out-of-bounds coordinates -/

/-- C6: with any coordinate pair outside `[0,width) × [0,height)`, each
mutation primitive returns `false` and the engine — grid, `particleCount`
and active-region set included — is returned unchanged. -/
theorem oob_mutation_rejected (e : Engine) (x y : Int)
    (h : ¬ inBounds e.width e.height x y) :
    (∀ t rng, engCreateParticle e x y t rng = (e, false, rng))
    ∧ engRemoveParticle e x y = (e, false)
    ∧ (∀ x2 y2, engMoveParticle e x y x2 y2 = (e, false)
        ∧ engMoveParticle e x2 y2 x y = (e, false)
        ∧ engSwapParticles e x y x2 y2 = (e, false)
        ∧ engSwapParticles e x2 y2 x y = (e, false))
    ∧ (∀ t rng, engChangeParticleType e x y t rng = (e, false, rng)) := by
  refine ⟨?_, ?_, ?_, ?_⟩
  · intro t rng
    unfold engCreateParticle
    rw [if_pos h]
  · unfold engRemoveParticle
    rw [if_pos h]
  · intro x2 y2
    refine ⟨?_, ?_, ?_, ?_⟩
    · unfold engMoveParticle
      rw [if_pos (fun hc => h hc.1)]
    · unfold engMoveParticle
      rw [if_pos (fun hc => h hc.2)]
    · unfold engSwapParticles
      rw [if_pos (fun hc => h hc.1)]
    · unfold engSwapParticles
      rw [if_pos (fun hc => h hc.2)]
  · intro t rng
    unfold engChangeParticleType
    rw [if_pos h]

/-- Witness for C6 at a concrete engine and the out-of-bounds point
`(-1, 0)`. -/
theorem oob_mutation_rejected_witness :
    ¬ inBounds (mkEngine 2 2).width (mkEngine 2 2).height (-1) 0
    ∧ engCreateParticle (mkEngine 2 2) (-1) 0 "sand" [] = (mkEngine 2 2, false, [])
    ∧ engRemoveParticle (mkEngine 2 2) (-1) 0 = (mkEngine 2 2, false)
    ∧ engMoveParticle (mkEngine 2 2) (-1) 0 1 1 = (mkEngine 2 2, false)
    ∧ engSwapParticles (mkEngine 2 2) 1 1 (-1) 0 = (mkEngine 2 2, false) := by
  have h : ¬ inBounds (mkEngine 2 2).width (mkEngine 2 2).height (-1) 0 := by
    decide
  have hthm := oob_mutation_rejected (mkEngine 2 2) (-1) 0 h
  exact ⟨h, hthm.1 "sand" [], hthm.2.1, (hthm.2.2.1 1 1).1, (hthm.2.2.1 1 1).2.2.2⟩

/-! ### C7: unknown element types -/

/-- C7: for a type absent from the element registry, the particle factory
returns `null`, engine-level creation returns `false`, and a type change
returns `false`; in every case the engine (hence the target cell) is left
unchanged. -/
theorem unknown_type_rejected (ty : String)
    (h : List.lookup ty ELEMENTS = none) :
    (∀ (x y : Int) (rng : Rng), particlesCreate ty x y rng = (none, rng))
    ∧ (∀ (e : Engine) (x y : Int) (rng : Rng),
        engCreateParticle e x y ty rng = (e, false, rng))
    ∧ (∀ (e : Engine) (x y : Int) (rng : Rng),
        engChangeParticleType e x y ty rng = (e, false, rng)) := by
  have hpc : ∀ (x y : Int) (rng : Rng),
      particlesCreate ty x y rng = (none, rng) := by
    intro x y rng
    unfold particlesCreate
    rw [h]
  refine ⟨hpc, ?_, ?_⟩
  · intro e x y rng
    unfold engCreateParticle
    by_cases hb : ¬ inBounds e.width e.height x y
    · rw [if_pos hb]
    · rw [if_neg hb]
      by_cases hc : (cell e.grid x y).isSome
      · rw [if_pos hc]
      · rw [if_neg hc, hpc]
  · intro e x y rng
    unfold engChangeParticleType
    by_cases hb : ¬ inBounds e.width e.height x y
    · rw [if_pos hb]
    · rw [if_neg hb]
      cases hcell : cell e.grid x y with
      | none => rfl
      | some p => rw [hpc]

/-- Witness for C7 at the concrete unknown type `"plasma"`. -/
theorem unknown_type_rejected_witness :
    List.lookup "plasma" ELEMENTS = none
    ∧ particlesCreate "plasma" 1 1 [1/2] = (none, [1/2])
    ∧ engCreateParticle (mkEngine 3 3) 1 1 "plasma" [1/2] =
        (mkEngine 3 3, false, [1/2])
    ∧ engChangeParticleType (mkEngine 3 3) 1 1 "plasma" [1/2] =
        (mkEngine 3 3, false, [1/2]) := by
  have h : List.lookup "plasma" ELEMENTS = none := rfl
  have hthm := unknown_type_rejected "plasma" h
  exact ⟨h, hthm.1 1 1 [1/2], hthm.2.1 (mkEngine 3 3) 1 1 [1/2],
        hthm.2.2 (mkEngine 3 3) 1 1 [1/2]⟩

/-! ### C9: acid+metal corrosion arithmetic

Numbers are embedded as exact rationals; the IEEE-754 rounding of the JS
`+= 0.1` accumulation is outside the embedding. -/

/-- A 2×1 engine with acid at (0,0) adjacent to metal at (1,0). -/
def acidMetalEngine : Engine :=
  { width := 2, height := 1,
    grid := [[some { type := "acid", x := 0, y := 0 },
              some { type := "metal", x := 1, y := 0 }]] }

/-- `n` invocations of the acid+metal reaction on `acidMetalEngine`'s pair;
the stream is empty because no randomness is drawn below the removal
threshold. -/
def iterAcidMetal : Nat → Engine → Engine
  | 0, e => e
  | n + 1, e => iterAcidMetal n (reactAcidMetal e 0 0 1 0 []).1

/-- The engine after a single corrosion increment: only the metal cell's
particle changes, to the same particle with the new corrosion value. -/
def corrodedOnce (e : Engine) (mx my : Int) (metal : Particle) (c1 : ℚ) :
    Engine :=
  { e with grid := setCell e.grid mx my (some { metal with corrosion := some c1 }) }

/-- C9: each invocation of the acid+metal reaction on an occupied metal cell
adds exactly 1/10 to its corrosion accumulator (0 when absent); below 1 the
reaction changes nothing else, does not fire and draws no randomness; at
`>= 1` it fires; on the concrete adjacent pair the metal survives the first
9 invocations (corrosion n/10) and is removed exactly by the 10th, at which
point the acid is also removed precisely when the consumption roll is below
3/10. -/
theorem acid_metal_corrosion :
    (∀ (e : Engine) (ax ay mx my : Int) (metal : Particle) (rng : Rng),
      cell e.grid mx my = some metal →
      (let c0 : ℚ := if jsFalsyQ metal.corrosion then 0
                     else metal.corrosion.getD 0
       (c0 + 1/10 < 1 →
          reactAcidMetal e ax ay mx my rng =
            (corrodedOnce e mx my metal (c0 + 1/10), false, rng))
       ∧ (∀ (r : ℚ) (rest : Rng), 1 ≤ c0 + 1/10 → rng = r :: rest →
          reactAcidMetal e ax ay mx my rng =
            ((if r < 3/10 then
                (engRemoveParticle ((engRemoveParticle
                  (corrodedOnce e mx my metal (c0 + 1/10)) mx my).1) ax ay).1
              else (engRemoveParticle
                (corrodedOnce e mx my metal (c0 + 1/10)) mx my).1),
             true, rest))))
    ∧ (∀ n : Nat, n ≤ 9 →
        (cell (iterAcidMetal n acidMetalEngine).grid 1 0).isSome = true)
    ∧ (∀ n : Nat, 1 ≤ n → n ≤ 9 →
        (cell (iterAcidMetal n acidMetalEngine).grid 1 0).map
            (fun p => p.corrosion) = some (some ((n : ℚ) / 10)))
    ∧ cell (iterAcidMetal 10 acidMetalEngine).grid 1 0 = none
    ∧ ((cell (reactAcidMetal (iterAcidMetal 9 acidMetalEngine) 0 0 1 0
          [1/5]).1.grid 0 0).isNone = true
       ∧ cell (reactAcidMetal (iterAcidMetal 9 acidMetalEngine) 0 0 1 0
          [1/5]).1.grid 1 0 = none)
    ∧ ((cell (reactAcidMetal (iterAcidMetal 9 acidMetalEngine) 0 0 1 0
          [1/2]).1.grid 0 0).isSome = true
       ∧ cell (reactAcidMetal (iterAcidMetal 9 acidMetalEngine) 0 0 1 0
          [1/2]).1.grid 1 0 = none) := by
  refine ⟨?_, ?_, ?_, ?_, ?_, ?_⟩
  · intro e ax ay mx my metal rng hcell
    constructor
    · intro hlt
      simp only [reactAcidMetal, hcell, corrodedOnce]
      rw [if_neg (not_le.mpr hlt)]
    · intro r rest hge hrng
      subst hrng
      simp only [reactAcidMetal, hcell, corrodedOnce, randNext]
      rw [if_pos hge]
  · intro n hn
    interval_cases n <;> decide
  · intro n hn1 hn9
    interval_cases n <;> decide
  · decide
  · exact ⟨by decide, by decide⟩
  · exact ⟨by decide, by decide⟩

/-- The metal particle as it stands after nine corrosion increments. -/
def metalNine : Particle :=
  { type := "metal", x := 1, y := 0, corrosion := some (9/10) }

/-- Witness for C9: both branches of the single-invocation theorem applied
at concrete inputs (fresh metal below the threshold; the tenth contact at
the threshold with roll 1/2). -/
theorem acid_metal_corrosion_witness :
    cell acidMetalEngine.grid 1 0 = some { type := "metal", x := 1, y := 0 }
    ∧ (0 : ℚ) + 1/10 < 1
    ∧ reactAcidMetal acidMetalEngine 0 0 1 0 [] =
        (corrodedOnce acidMetalEngine 1 0 { type := "metal", x := 1, y := 0 }
          (0 + 1/10), false, [])
    ∧ cell (iterAcidMetal 9 acidMetalEngine).grid 1 0 = some metalNine
    ∧ (1 : ℚ) ≤ 9/10 + 1/10
    ∧ reactAcidMetal (iterAcidMetal 9 acidMetalEngine) 0 0 1 0 [1/2] =
        ((if (1 : ℚ)/2 < 3/10 then
            (engRemoveParticle ((engRemoveParticle
              (corrodedOnce (iterAcidMetal 9 acidMetalEngine) 1 0 metalNine
                (9/10 + 1/10)) 1 0).1) 0 0).1
          else (engRemoveParticle
            (corrodedOnce (iterAcidMetal 9 acidMetalEngine) 1 0 metalNine
              (9/10 + 1/10)) 1 0).1),
         true, []) := by
  have h1 : cell acidMetalEngine.grid 1 0 =
      some { type := "metal", x := 1, y := 0 } := by decide
  have h9 : cell (iterAcidMetal 9 acidMetalEngine).grid 1 0 =
      some metalNine := by decide
  have ha := (acid_metal_corrosion.1 acidMetalEngine 0 0 1 0 _ [] h1).1
    (by decide)
  have hb := (acid_metal_corrosion.1 (iterAcidMetal 9 acidMetalEngine)
    0 0 1 0 _ [1/2] h9).2 (1/2) [] (by decide) rfl
  exact ⟨h1, by norm_num, ha, h9, by norm_num, hb⟩

/-! ### C3: the spark conductive jump

`ELEMENTS['spark'].update` collects `conductiveNeighbors` only from occupied
cells, then calls `engine.moveParticle(x, y, nx, ny)` with such a cell as
the destination; `moveParticle` requires an empty destination, so the jump
can never relocate the spark, although the behavior still returns `true`. -/

/-- A 3×3 engine: metal at (0,0), a spark with life 5 at (1,1), everything
else empty. -/
def sparkMetalEngine : Engine :=
  { width := 3, height := 3,
    grid := [[some { type := "metal", x := 0, y := 0 }, none, none],
             [none, some { type := "spark", x := 1, y := 1, life := some 5 },
              none],
             [none, none, none]] }

/-- `sparkMetalEngine` after the spark's in-loop life decrement: the engine
on which the behavior attempts its conductive jump. -/
def sparkDecremented : Engine :=
  { sparkMetalEngine with
    grid := setCell sparkMetalEngine.grid 1 1
      (some { type := "spark", x := 1, y := 1, life := some 4 }) }

/-- C3 evaluated at the failing input: the spark has a conductive neighbor
at (0,0), the 0.7 roll succeeds (1/2 < 7/10) and the random choice picks
that neighbor, yet after the behavior the spark is still at (1,1) (life
merely decremented), the metal cell is untouched, and the behavior
nevertheless reports a change: the attempted `moveParticle` onto the
occupied conductive cell fails.  The claimed teleport (spark at (0,0),
origin vacated) never happens. -/
theorem spark_jump_never_moves :
    (cell (sparkUpdate sparkProps sparkMetalEngine 1 1 [1/2, 0]).1.grid 1 1).map
        (fun p => (p.type, p.life)) = some ("spark", some 4)
    ∧ (cell (sparkUpdate sparkProps sparkMetalEngine 1 1 [1/2, 0]).1.grid 0 0).map
        (fun p => p.type) = some "metal"
    ∧ (sparkUpdate sparkProps sparkMetalEngine 1 1 [1/2, 0]).2.1 = true
    ∧ engMoveParticle sparkDecremented 1 1 0 0 = (sparkDecremented, false) := by
  refine ⟨by decide, by decide, by decide, by decide⟩

/-! ### C1: one interaction per particle per tick -/

/-- A 3×3 engine: metal at (0,0) and (2,0), acid at (1,1), empty below. -/
def acidTwoMetalsEngine : Engine :=
  { width := 3, height := 3,
    grid := [[some { type := "metal", x := 0, y := 0 }, none,
              some { type := "metal", x := 2, y := 0 }],
             [none, some { type := "acid", x := 1, y := 1 }, none],
             [none, none, none]] }

/-- C1 counterexample: during one `Engine.update` tick the acid particle at
(1,1) triggers the acid+metal reaction against BOTH metal neighbors — each
reaction mutates a corrosion accumulator while returning false — and the
same acid particle still executes its movement behavior, falling to (1,2).
So more than one reaction from the interaction table alters grid state for
one particle in one tick, and a particle whose reactions altered state also
moves in that tick. -/
theorem two_reactions_alter_state_one_tick :
    (cell acidTwoMetalsEngine.grid 0 0).map (fun p => p.corrosion) = some none
    ∧ (cell acidTwoMetalsEngine.grid 2 0).map (fun p => p.corrosion) =
        some none
    ∧ (cell (engUpdate acidTwoMetalsEngine [1/2, 1/2]).1.grid 0 0).map
        (fun p => p.corrosion) = some (some (1/10))
    ∧ (cell (engUpdate acidTwoMetalsEngine [1/2, 1/2]).1.grid 2 0).map
        (fun p => p.corrosion) = some (some (1/10))
    ∧ cell (engUpdate acidTwoMetalsEngine [1/2, 1/2]).1.grid 1 1 = none
    ∧ (cell (engUpdate acidTwoMetalsEngine [1/2, 1/2]).1.grid 1 2).map
        (fun p => p.type) = some "acid" := by
  refine ⟨by decide, by decide, by decide, by decide, by decide, by decide⟩

/-- The grid write `particle.updated = true` that `Engine.update` performs
before running the interaction resolver for a particle. -/
def markUpdated (e : Engine) (x y : Int) (particle : Particle) : Engine :=
  { e with grid := setCell e.grid x y (some { particle with updated := true }) }

/-- C1 (amended): per processed particle per tick at most one reaction
fires (returns true): the neighbor scan of the interaction resolver stops at
the first firing reaction, never examining the remaining neighbors, and
`Engine.update` skips the element movement behavior exactly for a particle
whose interaction pass fired.  (Reactions that return false may still
mutate state and do not prevent movement.) -/
theorem interaction_fires_at_most_once :
    (∀ (x y : Int) (l1 l2 : List (Int × Int)) (e : Engine) (rng : Rng),
      interactionScan x y (l1 ++ l2) e rng =
        (if (interactionScan x y l1 e rng).2.1 then interactionScan x y l1 e rng
         else interactionScan x y l2 (interactionScan x y l1 e rng).1
            (interactionScan x y l1 e rng).2.2))
    ∧ (∀ (e : Engine) (na : List (Int × Int)) (count : Nat) (rng : Rng)
        (x y : Int) (particle : Particle) (elementType : ElementProps),
        cell e.grid x y = some particle → particle.updated = false →
        List.lookup particle.type ELEMENTS = some elementType →
        (processParticleInteractions (markUpdated e x y particle) x y rng).2.1
            = true →
        updateStep (e, na, count, rng) (x, y) =
          ((processParticleInteractions (markUpdated e x y particle) x y
              rng).1,
           markRegion (processParticleInteractions (markUpdated e x y
              particle) x y rng).1.width
             (processParticleInteractions (markUpdated e x y particle) x y
              rng).1.height x y na,
           count + 1,
           (processParticleInteractions (markUpdated e x y particle) x y
              rng).2.2)) := by
  constructor
  · intro x y l1 l2
    induction l1 with
    | nil =>
      intro e rng
      simp [interactionScan]
    | cons off l1 ih =>
      intro e rng
      rw [List.cons_append]
      by_cases hc : inBounds e.width e.height (x + off.1) (y + off.2) ∧
          (cell e.grid (x + off.1) (y + off.2)).isSome
      · rw [show interactionScan x y (off :: (l1 ++ l2)) e rng =
            (let r := processInteraction e x y (x + off.1) (y + off.2) rng
             if r.2.1 then (r.1, true, r.2.2)
             else interactionScan x y (l1 ++ l2) r.1 r.2.2) from by
              simp only [interactionScan, if_pos hc]]
        rw [show interactionScan x y (off :: l1) e rng =
            (let r := processInteraction e x y (x + off.1) (y + off.2) rng
             if r.2.1 then (r.1, true, r.2.2)
             else interactionScan x y l1 r.1 r.2.2) from by
              simp only [interactionScan, if_pos hc]]
        by_cases hb :
            (processInteraction e x y (x + off.1) (y + off.2) rng).2.1
        · simp only [hb, if_true]
        · simp only [hb, if_false, Bool.false_eq_true]
          rw [ih]
      · rw [show interactionScan x y (off :: (l1 ++ l2)) e rng =
            interactionScan x y (l1 ++ l2) e rng from by
              simp only [interactionScan, if_neg hc]]
        rw [show interactionScan x y (off :: l1) e rng =
            interactionScan x y l1 e rng from by
              simp only [interactionScan, if_neg hc]]
        rw [ih]
  · intro e na count rng x y particle elementType hcell hupd hlook hfired
    have hmark : ({ e with grid := setCell e.grid x y (some { particle with updated := true }) } : Engine) = markUpdated e x y particle := rfl
    have hsplit : processParticleInteractions (markUpdated e x y particle) x y
        rng =
        ((processParticleInteractions (markUpdated e x y particle) x y rng).1,
         true,
         (processParticleInteractions (markUpdated e x y particle) x y
            rng).2.2) := by
      rw [← hfired]
    simp only [updateStep, hcell, hupd, Bool.false_eq_true, if_false, hlook,
      hmark]
    rw [hsplit]
    simp only [if_true]

/-- A 2×1 engine with water at (0,0) next to fire at (1,0): the water+fire
reaction always fires. -/
def waterFireEngine : Engine :=
  { width := 2, height := 1,
    grid := [[some { type := "water", x := 0, y := 0 },
              some { type := "fire", x := 1, y := 0, life := some 10 }]] }

/-- The water particle of `waterFireEngine`. -/
def waterParticleWF : Particle := { type := "water", x := 0, y := 0 }

/-- Witness for C1 (amended) at a concrete firing interaction. -/
theorem interaction_fires_at_most_once_witness :
    cell waterFireEngine.grid 0 0 = some waterParticleWF
    ∧ waterParticleWF.updated = false
    ∧ List.lookup waterParticleWF.type ELEMENTS = some waterProps
    ∧ (processParticleInteractions (markUpdated waterFireEngine 0 0
        waterParticleWF) 0 0 [0, 0]).2.1 = true
    ∧ updateStep (waterFireEngine, [], 0, [0, 0]) (0, 0) =
        ((processParticleInteractions (markUpdated waterFireEngine 0 0
            waterParticleWF) 0 0 [0, 0]).1,
         markRegion (processParticleInteractions (markUpdated waterFireEngine
            0 0 waterParticleWF) 0 0 [0, 0]).1.width
           (processParticleInteractions (markUpdated waterFireEngine 0 0
            waterParticleWF) 0 0 [0, 0]).1.height 0 0 [],
         0 + 1,
         (processParticleInteractions (markUpdated waterFireEngine 0 0
            waterParticleWF) 0 0 [0, 0]).2.2) := by
  have h1 : cell waterFireEngine.grid 0 0 = some waterParticleWF := by decide
  have h2 : waterParticleWF.updated = false := rfl
  have h3 : List.lookup waterParticleWF.type ELEMENTS = some waterProps := rfl
  have h4 : (processParticleInteractions (markUpdated waterFireEngine 0 0
      waterParticleWF) 0 0 [0, 0]).2.1 = true := by decide
  exact ⟨h1, h2, h3, h4,
    interaction_fires_at_most_once.2 waterFireEngine [] 0 [0, 0] 0 0
      waterParticleWF waterProps h1 h2 h3 h4⟩

/-! ### C2: undo snapshots around mutating operations -/

/-- Engine after one brush draw on a fresh 2×2 engine. -/
def undoSeqEngine1 : Engine :=
  (drawElements (mkEngine 2 2) "wall" [(0, 0)] [0]).1

/-- `undoSeqEngine1` after an undo. -/
def undoSeqEngine2 : Engine := (engUndo undoSeqEngine1).1

/-- `undoSeqEngine2` after a second, clearly mutating draw. -/
def undoSeqEngine3 : Engine :=
  (drawElements undoSeqEngine2 "wall" [(1, 1)] [0]).1

/-- C2 counterexample: the first mutating draw after an undo consumes the
`_skipNextUndo` flag set by the undo, so it pushes NO snapshot of its
pre-operation grid and does NOT clear the redo stack, although it does
mutate the grid (a wall appears at (1,1)).  Only the restore inside
undo/redo was supposed to be exempt. -/
theorem draw_after_undo_records_nothing :
    undoSeqEngine2.skipNextUndo = true
    ∧ (cell undoSeqEngine3.grid 1 1).map (fun p => p.type) = some "wall"
    ∧ undoSeqEngine3.undoStack = []
    ∧ undoSeqEngine3.redoStack = [exportCompressedState undoSeqEngine1] := by
  refine ⟨by decide, by decide, by decide, by decide⟩

/-- The snapshot push described by the claim: append, evicting the oldest
entry when the stack would exceed its cap. -/
def pushSnapshot (stack : List CompressedState) (snap : CompressedState)
    (cap : Nat) : List CompressedState :=
  if stack.length < cap then stack ++ [snap] else (stack ++ [snap]).drop 1

/-- `_saveUndoState` without a pending skip pushes the pre-operation
snapshot with eviction at the cap and clears redo. -/
theorem saveUndoState_push (e : Engine) (h : e.skipNextUndo = false) :
    (saveUndoState e).undoStack =
      pushSnapshot e.undoStack (exportCompressedState e) e.maxUndoSteps
    ∧ (saveUndoState e).redoStack = []
    ∧ (saveUndoState e).skipNextUndo = false := by
  unfold saveUndoState pushSnapshot
  rw [h]
  simp only [Bool.false_eq_true, if_false]
  have hl : (e.undoStack ++ [exportCompressedState e]).length =
      e.undoStack.length + 1 := by simp
  refine ⟨?_, trivial, trivial⟩
  by_cases hlen : e.undoStack.length < e.maxUndoSteps
  · rw [if_neg (by omega), if_pos hlen]
  · rw [if_pos (by omega), if_neg hlen]

/-- `_saveUndoState` right after a restore consumes the flag and records
nothing. -/
theorem saveUndoState_skipped (e : Engine) (h : e.skipNextUndo = true) :
    (saveUndoState e).undoStack = e.undoStack
    ∧ (saveUndoState e).redoStack = e.redoStack
    ∧ (saveUndoState e).skipNextUndo = false := by
  unfold saveUndoState
  rw [h]
  exact ⟨rfl, rfl, rfl⟩

/-- `Engine.createParticle` never touches the history state. -/
theorem engCreateParticle_history (e : Engine) (x y : Int) (t : String)
    (rng : Rng) :
    (engCreateParticle e x y t rng).1.undoStack = e.undoStack
    ∧ (engCreateParticle e x y t rng).1.redoStack = e.redoStack
    ∧ (engCreateParticle e x y t rng).1.skipNextUndo = e.skipNextUndo := by
  unfold engCreateParticle
  by_cases h1 : ¬ inBounds e.width e.height x y
  · rw [if_pos h1]
    exact ⟨rfl, rfl, rfl⟩
  · rw [if_neg h1]
    by_cases h2 : (cell e.grid x y).isSome
    · rw [if_pos h2]
      exact ⟨rfl, rfl, rfl⟩
    · rw [if_neg h2]
      rcases hpc : particlesCreate t x y rng with ⟨_ | p, rng2⟩
      · exact ⟨rfl, rfl, rfl⟩
      · exact ⟨rfl, rfl, rfl⟩

/-- `Engine.removeParticle` never touches the history state. -/
theorem engRemoveParticle_history (e : Engine) (x y : Int) :
    (engRemoveParticle e x y).1.undoStack = e.undoStack
    ∧ (engRemoveParticle e x y).1.redoStack = e.redoStack
    ∧ (engRemoveParticle e x y).1.skipNextUndo = e.skipNextUndo := by
  unfold engRemoveParticle
  by_cases h1 : ¬ inBounds e.width e.height x y
  · rw [if_pos h1]
    exact ⟨rfl, rfl, rfl⟩
  · rw [if_neg h1]
    cases hc : cell e.grid x y <;> exact ⟨rfl, rfl, rfl⟩

/-- The draw loop never touches the history state. -/
theorem foldl_drawStep_history (ty : String) (pts : List (Int × Int)) :
    ∀ st : Engine × Nat × Rng,
      (pts.foldl (drawStep ty) st).1.undoStack = st.1.undoStack
      ∧ (pts.foldl (drawStep ty) st).1.redoStack = st.1.redoStack
      ∧ (pts.foldl (drawStep ty) st).1.skipNextUndo = st.1.skipNextUndo := by
  induction pts with
  | nil => intro st; exact ⟨rfl, rfl, rfl⟩
  | cons pt pts ih =>
    intro st
    rcases st with ⟨e, count, rng⟩
    rcases ih (drawStep ty (e, count, rng) pt) with ⟨i1, i2, i3⟩
    have hd : (drawStep ty (e, count, rng) pt).1 =
        (engCreateParticle e pt.1 pt.2 ty rng).1 := rfl
    rcases engCreateParticle_history e pt.1 pt.2 ty rng with ⟨c1, c2, c3⟩
    rw [List.foldl_cons]
    exact ⟨by rw [i1, hd, c1], by rw [i2, hd, c2], by rw [i3, hd, c3]⟩

/-- The erase loop never touches the history state. -/
theorem foldl_eraseStep_history (pts : List (Int × Int)) :
    ∀ st : Engine × Nat,
      (pts.foldl eraseStep st).1.undoStack = st.1.undoStack
      ∧ (pts.foldl eraseStep st).1.redoStack = st.1.redoStack
      ∧ (pts.foldl eraseStep st).1.skipNextUndo = st.1.skipNextUndo := by
  induction pts with
  | nil => intro st; exact ⟨rfl, rfl, rfl⟩
  | cons pt pts ih =>
    intro st
    rcases st with ⟨e, count⟩
    rcases ih (eraseStep (e, count) pt) with ⟨i1, i2, i3⟩
    have hd : (eraseStep (e, count) pt).1 =
        (engRemoveParticle e pt.1 pt.2).1 := rfl
    rcases engRemoveParticle_history e pt.1 pt.2 with ⟨c1, c2, c3⟩
    rw [List.foldl_cons]
    exact ⟨by rw [i1, hd, c1], by rw [i2, hd, c2], by rw [i3, hd, c3]⟩

/-- The import loop never touches the history state. -/
theorem foldl_importPlace_history (ps : List SavedParticle) :
    ∀ e : Engine,
      (ps.foldl importPlace e).undoStack = e.undoStack
      ∧ (ps.foldl importPlace e).redoStack = e.redoStack
      ∧ (ps.foldl importPlace e).skipNextUndo = e.skipNextUndo := by
  induction ps with
  | nil => intro e; exact ⟨rfl, rfl, rfl⟩
  | cons p ps ih =>
    intro e
    rcases ih (importPlace e p) with ⟨i1, i2, i3⟩
    rw [List.foldl_cons]
    exact ⟨i1, i2, i3⟩

/-- C2 (amended): `drawElements`, `eraseElements` and `reset` push the
pre-operation snapshot (cap 10, oldest evicted) and clear the redo stack —
EXCEPT the first such operation after an undo/redo restore, which consumes
the `_skipNextUndo` flag and neither pushes nor clears; undo moves the
current snapshot to the redo stack and pops the undo stack (redo
symmetrically) without recording the restore itself. -/
theorem history_save_policy :
    (∀ (e : Engine) (ty : String) (pts : List (Int × Int)) (rng : Rng),
      (e.skipNextUndo = false →
        (drawElements e ty pts rng).1.undoStack =
          pushSnapshot e.undoStack (exportCompressedState e) e.maxUndoSteps
        ∧ (drawElements e ty pts rng).1.redoStack = [])
      ∧ (e.skipNextUndo = true →
        (drawElements e ty pts rng).1.undoStack = e.undoStack
        ∧ (drawElements e ty pts rng).1.redoStack = e.redoStack
        ∧ (drawElements e ty pts rng).1.skipNextUndo = false))
    ∧ (∀ (e : Engine) (pts : List (Int × Int)),
      (e.skipNextUndo = false →
        (eraseElements e pts).1.undoStack =
          pushSnapshot e.undoStack (exportCompressedState e) e.maxUndoSteps
        ∧ (eraseElements e pts).1.redoStack = [])
      ∧ (e.skipNextUndo = true →
        (eraseElements e pts).1.undoStack = e.undoStack
        ∧ (eraseElements e pts).1.redoStack = e.redoStack
        ∧ (eraseElements e pts).1.skipNextUndo = false))
    ∧ (∀ e : Engine,
      (e.skipNextUndo = false →
        (engReset e).undoStack =
          pushSnapshot e.undoStack (exportCompressedState e) e.maxUndoSteps
        ∧ (engReset e).redoStack = [])
      ∧ (e.skipNextUndo = true →
        (engReset e).undoStack = e.undoStack
        ∧ (engReset e).redoStack = e.redoStack
        ∧ (engReset e).skipNextUndo = false))
    ∧ (∀ e : Engine, e.undoStack ≠ [] →
        (engUndo e).1.undoStack = e.undoStack.dropLast
        ∧ (engUndo e).1.redoStack = e.redoStack ++ [exportCompressedState e]
        ∧ (engUndo e).1.skipNextUndo = true)
    ∧ (∀ e : Engine, e.redoStack ≠ [] →
        (engRedo e).1.redoStack = e.redoStack.dropLast
        ∧ (engRedo e).1.undoStack = e.undoStack ++ [exportCompressedState e]
        ∧ (engRedo e).1.skipNextUndo = true) := by
  have hdraw : ∀ (e : Engine) (ty : String) (pts : List (Int × Int))
      (rng : Rng),
      (drawElements e ty pts rng).1.undoStack = (saveUndoState e).undoStack
      ∧ (drawElements e ty pts rng).1.redoStack = (saveUndoState e).redoStack
      ∧ (drawElements e ty pts rng).1.skipNextUndo =
          (saveUndoState e).skipNextUndo := by
    intro e ty pts rng
    unfold drawElements
    exact foldl_drawStep_history ty pts (saveUndoState e, 0, rng)
  have herase : ∀ (e : Engine) (pts : List (Int × Int)),
      (eraseElements e pts).1.undoStack = (saveUndoState e).undoStack
      ∧ (eraseElements e pts).1.redoStack = (saveUndoState e).redoStack
      ∧ (eraseElements e pts).1.skipNextUndo =
          (saveUndoState e).skipNextUndo := by
    intro e pts
    unfold eraseElements
    exact foldl_eraseStep_history pts (saveUndoState e, 0)
  refine ⟨?_, ?_, ?_, ?_, ?_⟩
  · intro e ty pts rng
    rcases hdraw e ty pts rng with ⟨d1, d2, d3⟩
    constructor
    · intro h
      rcases saveUndoState_push e h with ⟨s1, s2, _⟩
      exact ⟨by rw [d1, s1], by rw [d2, s2]⟩
    · intro h
      rcases saveUndoState_skipped e h with ⟨s1, s2, s3⟩
      exact ⟨by rw [d1, s1], by rw [d2, s2], by rw [d3, s3]⟩
  · intro e pts
    rcases herase e pts with ⟨d1, d2, d3⟩
    constructor
    · intro h
      rcases saveUndoState_push e h with ⟨s1, s2, _⟩
      exact ⟨by rw [d1, s1], by rw [d2, s2]⟩
    · intro h
      rcases saveUndoState_skipped e h with ⟨s1, s2, s3⟩
      exact ⟨by rw [d1, s1], by rw [d2, s2], by rw [d3, s3]⟩
  · intro e
    constructor
    · intro h
      rcases saveUndoState_push e h with ⟨s1, s2, _⟩
      exact ⟨s1, s2⟩
    · intro h
      rcases saveUndoState_skipped e h with ⟨s1, s2, s3⟩
      exact ⟨s1, s2, s3⟩
  · intro e h
    cases hg : e.undoStack.getLast? with
    | none => exact absurd (List.getLast?_eq_none_iff.mp hg) h
    | some prev =>
      have hstep : engUndo e =
          (importCompressedState { e with redoStack := e.redoStack ++ [exportCompressedState e], undoStack := e.undoStack.dropLast, skipNextUndo := true } prev, true) := by
        unfold engUndo
        rw [hg]
      rw [hstep]
      unfold importCompressedState
      rcases foldl_importPlace_history prev.particles _ with ⟨i1, i2, i3⟩
      exact ⟨i1, i2, i3⟩
  · intro e h
    cases hg : e.redoStack.getLast? with
    | none => exact absurd (List.getLast?_eq_none_iff.mp hg) h
    | some nxt =>
      have hstep : engRedo e =
          (importCompressedState { e with undoStack := e.undoStack ++ [exportCompressedState e], redoStack := e.redoStack.dropLast, skipNextUndo := true } nxt, true) := by
        unfold engRedo
        rw [hg]
      rw [hstep]
      unfold importCompressedState
      rcases foldl_importPlace_history nxt.particles _ with ⟨i1, i2, i3⟩
      exact ⟨i2, i1, i3⟩

/-- Witness for C2 (amended): a push on a fresh engine, a skipped push
right after an undo, and the undo instance itself. -/
theorem history_save_policy_witness :
    (mkEngine 2 2).skipNextUndo = false
    ∧ undoSeqEngine1.undoStack =
        pushSnapshot (mkEngine 2 2).undoStack
          (exportCompressedState (mkEngine 2 2)) (mkEngine 2 2).maxUndoSteps
    ∧ undoSeqEngine1.redoStack = []
    ∧ undoSeqEngine1.undoStack ≠ []
    ∧ undoSeqEngine2.undoStack = undoSeqEngine1.undoStack.dropLast
    ∧ undoSeqEngine2.redoStack =
        undoSeqEngine1.redoStack ++ [exportCompressedState undoSeqEngine1]
    ∧ undoSeqEngine2.skipNextUndo = true
    ∧ undoSeqEngine3.undoStack = undoSeqEngine2.undoStack
    ∧ undoSeqEngine3.redoStack = undoSeqEngine2.redoStack := by
  have h0 : (mkEngine 2 2).skipNextUndo = false := rfl
  have h1 := (history_save_policy.1 (mkEngine 2 2) "wall" [(0, 0)] [0]).1 h0
  have hne : undoSeqEngine1.undoStack ≠ [] := by decide
  have h2 := history_save_policy.2.2.2.1 undoSeqEngine1 hne
  have hskip : undoSeqEngine2.skipNextUndo = true := by decide
  have h3 := (history_save_policy.1 undoSeqEngine2 "wall" [(1, 1)] [0]).2 hskip
  exact ⟨h0, h1.1, h1.2, hne, h2.1, h2.2.1, h2.2.2, h3.1, h3.2.1⟩

/-! ### C4: particle count equals the number of occupied cells -/

/-- Number of occupied cells in one row. -/
def rowOcc (row : List (Option Particle)) : Nat :=
  row.countP (fun c => c.isSome)

/-- Number of occupied cells in a grid. -/
def occupiedCells : Grid → Nat
  | [] => 0
  | row :: rest => rowOcc row + occupiedCells rest

/-- Occupancy change of a single in-range row write, in additive form. -/
theorem rowOcc_set (row : List (Option Particle)) (n : Nat)
    (v : Option Particle) (h : n < row.length) :
    rowOcc (row.set n v) + (if (row.getD n none).isSome then 1 else 0) =
      rowOcc row + (if v.isSome then 1 else 0) := by
  induction row generalizing n with
  | nil => simp at h
  | cons a t ih =>
    cases n with
    | zero =>
      simp only [List.set_cons_zero, rowOcc, List.countP_cons,
        List.getD_cons_zero]
      omega
    | succ n =>
      have ht : n < t.length := by simpa using h
      have := ih n ht
      simp only [List.set_cons_succ, rowOcc, List.countP_cons,
        List.getD_cons_succ] at this ⊢
      omega

/-- Occupancy change of a single in-range grid row replacement. -/
theorem occupiedCells_set (g : Grid) (n : Nat) (r : List (Option Particle))
    (h : n < g.length) :
    occupiedCells (g.set n r) + rowOcc (g.getD n []) =
      occupiedCells g + rowOcc r := by
  induction g generalizing n with
  | nil => simp at h
  | cons row rest ih =>
    cases n with
    | zero =>
      simp only [List.set_cons_zero, occupiedCells, List.getD_cons_zero]
      omega
    | succ n =>
      have ht : n < rest.length := by simpa using h
      have := ih n ht
      simp only [List.set_cons_succ, occupiedCells, List.getD_cons_succ]
        at this ⊢
      omega

/-- Occupancy change of one cell write, in additive form. -/
theorem occupiedCells_setCell (g : Grid) (width height x y : Int)
    (v : Option Particle) (hWF : WFGrid g width height)
    (hb : inBounds width height x y) :
    occupiedCells (setCell g x y v) +
        (if (cell g x y).isSome then 1 else 0) =
      occupiedCells g + (if v.isSome then 1 else 0) := by
  rcases hWF with ⟨hlen, hrow⟩
  rcases hb with ⟨hx0, hxw, hy0, hyh⟩
  have hyl : y.toNat < g.length := by rw [hlen]; omega
  have hxr : x.toNat < (g.getD y.toNat []).length := by
    rw [hrow _ (getD_mem g y.toNat [] hyl)]; omega
  unfold setCell cell
  have h1 := occupiedCells_set g y.toNat
    ((g.getD y.toNat []).set x.toNat v) hyl
  have h2 := rowOcc_set (g.getD y.toNat []) x.toNat v hxr
  omega

/-- A row of empty cells has no occupants. -/
theorem rowOcc_replicate_none (n : Nat) :
    rowOcc (List.replicate n (none : Option Particle)) = 0 := by
  induction n with
  | zero => rfl
  | succ n ih =>
    simp only [List.replicate_succ, rowOcc, List.countP_cons] at ih ⊢
    simp [ih]

/-- A fresh grid has no occupants. -/
theorem occupiedCells_createGrid (width height : Int) :
    occupiedCells (createGrid width height) = 0 := by
  unfold createGrid
  induction height.toNat with
  | zero => rfl
  | succ n ih =>
    simp only [List.replicate_succ, occupiedCells, ih,
      rowOcc_replicate_none]

/-- The particle-count invariant of C4. -/
def CountInv (e : Engine) : Prop :=
  e.particleCount = (occupiedCells e.grid : Int)

/-- C4: the freshly constructed engine satisfies
`particleCount = number of occupied cells`, and every mutation primitive —
createParticle, removeParticle, moveParticle, swapParticles,
changeParticleType — preserves both the invariant and grid
well-formedness. -/
theorem particle_count_invariant :
    (∀ width height : Int, CountInv (mkEngine width height)
      ∧ WF (mkEngine width height))
    ∧ (∀ (e : Engine) (x y : Int) (t : String) (rng : Rng), WF e →
        CountInv e → CountInv (engCreateParticle e x y t rng).1
          ∧ WF (engCreateParticle e x y t rng).1)
    ∧ (∀ (e : Engine) (x y : Int), WF e →
        CountInv e → CountInv (engRemoveParticle e x y).1
          ∧ WF (engRemoveParticle e x y).1)
    ∧ (∀ (e : Engine) (fromX fromY toX toY : Int), WF e →
        CountInv e → CountInv (engMoveParticle e fromX fromY toX toY).1
          ∧ WF (engMoveParticle e fromX fromY toX toY).1)
    ∧ (∀ (e : Engine) (x1 y1 x2 y2 : Int), WF e →
        CountInv e → CountInv (engSwapParticles e x1 y1 x2 y2).1
          ∧ WF (engSwapParticles e x1 y1 x2 y2).1)
    ∧ (∀ (e : Engine) (x y : Int) (t : String) (rng : Rng), WF e →
        CountInv e → CountInv (engChangeParticleType e x y t rng).1
          ∧ WF (engChangeParticleType e x y t rng).1) := by
  refine ⟨?_, ?_, ?_, ?_, ?_, ?_⟩
  · intro width height
    constructor
    · show (0 : Int) = (occupiedCells (createGrid width height) : Int)
      rw [occupiedCells_createGrid]
      rfl
    · exact WFGrid_createGrid width height
  · intro e x y t rng hWF hinv
    unfold engCreateParticle
    by_cases h1 : ¬ inBounds e.width e.height x y
    · rw [if_pos h1]
      exact ⟨hinv, hWF⟩
    · rw [if_neg h1]
      push_neg at h1
      by_cases h2 : (cell e.grid x y).isSome
      · rw [if_pos h2]
        exact ⟨hinv, hWF⟩
      · rw [if_neg h2]
        rcases hpc : particlesCreate t x y rng with ⟨_ | p, rng2⟩
        · exact ⟨hinv, hWF⟩
        · have hocc := occupiedCells_setCell e.grid e.width e.height x y
            (some p) hWF h1
          have hc0 : (cell e.grid x y).isSome = false := by
            simpa using h2
          rw [hc0] at hocc
          simp only [if_false, Option.isSome_some, if_true,
            Bool.false_eq_true] at hocc
          constructor
          · show e.particleCount + 1 =
              (occupiedCells (setCell e.grid x y (some p)) : Int)
            rw [hinv]
            omega
          · exact WFGrid_setCell e.grid e.width e.height x y (some p) hWF
  · intro e x y hWF hinv
    unfold engRemoveParticle
    by_cases h1 : ¬ inBounds e.width e.height x y
    · rw [if_pos h1]
      exact ⟨hinv, hWF⟩
    · rw [if_neg h1]
      push_neg at h1
      cases hc : cell e.grid x y with
      | none => exact ⟨hinv, hWF⟩
      | some p =>
        have hocc := occupiedCells_setCell e.grid e.width e.height x y
          none hWF h1
        rw [hc] at hocc
        simp only [Option.isSome_some, if_true, Option.isSome_none,
          Bool.false_eq_true, if_false] at hocc
        constructor
        · show e.particleCount - 1 =
            (occupiedCells (setCell e.grid x y none) : Int)
          rw [hinv]
          omega
        · exact WFGrid_setCell e.grid e.width e.height x y none hWF
  · intro e fromX fromY toX toY hWF hinv
    unfold engMoveParticle
    by_cases h1 : ¬ (inBounds e.width e.height fromX fromY ∧
        inBounds e.width e.height toX toY)
    · rw [if_pos h1]
      exact ⟨hinv, hWF⟩
    · rw [if_neg h1]
      push_neg at h1
      rcases h1 with ⟨hbf, hbt⟩
      cases hf : cell e.grid fromX fromY with
      | none => exact ⟨hinv, hWF⟩
      | some p =>
        cases ht : cell e.grid toX toY with
        | some q => exact ⟨hinv, hWF⟩
        | none =>
          have hne : ¬ (toX.toNat = fromX.toNat ∧ toY.toNat = fromY.toNat)
              := by
            intro hcon
            have : cell e.grid fromX fromY = cell e.grid toX toY := by
              unfold cell
              rw [hcon.1, hcon.2]
            rw [hf, ht] at this
            exact Option.noConfusion this
          have hWF1 := WFGrid_setCell e.grid e.width e.height toX toY
            (some { p with x := toX, y := toY, updated := true }) hWF
          have hocc1 := occupiedCells_setCell e.grid e.width e.height toX
            toY (some { p with x := toX, y := toY, updated := true }) hWF hbt
          rw [ht] at hocc1
          simp only [Option.isSome_none, Bool.false_eq_true, if_false,
            Option.isSome_some, if_true] at hocc1
          have hcell1 : cell (setCell e.grid toX toY
              (some { p with x := toX, y := toY, updated := true }))
              fromX fromY = some p := by
            rw [cell_setCell_ne _ _ _ _ _ _ hne]
            exact hf
          have hocc2 := occupiedCells_setCell
            (setCell e.grid toX toY
              (some { p with x := toX, y := toY, updated := true }))
            e.width e.height fromX fromY none hWF1 hbf
          rw [hcell1] at hocc2
          simp only [Option.isSome_some, if_true, Option.isSome_none,
            Bool.false_eq_true, if_false] at hocc2
          constructor
          · show e.particleCount = (occupiedCells (setCell (setCell e.grid
              toX toY (some { p with x := toX, y := toY, updated := true }))
              fromX fromY none) : Int)
            rw [hinv]
            omega
          · exact WFGrid_setCell _ e.width e.height fromX fromY none hWF1
  · intro e x1 y1 x2 y2 hWF hinv
    unfold engSwapParticles
    by_cases h1 : ¬ (inBounds e.width e.height x1 y1 ∧
        inBounds e.width e.height x2 y2)
    · rw [if_pos h1]
      exact ⟨hinv, hWF⟩
    · rw [if_neg h1]
      push_neg at h1
      rcases h1 with ⟨hb1, hb2⟩
      cases hc1 : cell e.grid x1 y1 with
      | none => exact ⟨hinv, hWF⟩
      | some p1 =>
        cases hc2 : cell e.grid x2 y2 with
        | none => exact ⟨hinv, hWF⟩
        | some p2 =>
          have hWF1 := WFGrid_setCell e.grid e.width e.height x1 y1
            (some { p2 with x := x1, y := y1, updated := true }) hWF
          have hocc1 := occupiedCells_setCell e.grid e.width e.height x1 y1
            (some { p2 with x := x1, y := y1, updated := true }) hWF hb1
          rw [hc1] at hocc1
          simp only [Option.isSome_some, if_true] at hocc1
          have hcell1 : (cell (setCell e.grid x1 y1
              (some { p2 with x := x1, y := y1, updated := true }))
              x2 y2).isSome = true := by
            rw [cell_setCell]
            split
            · rfl
            · rw [hc2]
              rfl
          have hocc2 := occupiedCells_setCell
            (setCell e.grid x1 y1
              (some { p2 with x := x1, y := y1, updated := true }))
            e.width e.height x2 y2
            (some { p1 with x := x2, y := y2, updated := true }) hWF1 hb2
          rw [hcell1] at hocc2
          simp only [Option.isSome_some, if_true] at hocc2
          constructor
          · show e.particleCount = (occupiedCells (setCell (setCell e.grid
              x1 y1 (some { p2 with x := x1, y := y1, updated := true }))
              x2 y2 (some { p1 with x := x2, y := y2, updated := true }))
                : Int)
            rw [hinv]
            omega
          · exact WFGrid_setCell _ e.width e.height x2 y2 _ hWF1
  · intro e x y t rng hWF hinv
    unfold engChangeParticleType
    by_cases h1 : ¬ inBounds e.width e.height x y
    · rw [if_pos h1]
      exact ⟨hinv, hWF⟩
    · rw [if_neg h1]
      push_neg at h1
      cases hc : cell e.grid x y with
      | none => exact ⟨hinv, hWF⟩
      | some p =>
        rcases hpc : particlesCreate t x y rng with ⟨_ | q, rng2⟩
        · exact ⟨hinv, hWF⟩
        · have hocc := occupiedCells_setCell e.grid e.width e.height x y
            (some { q with updated := true }) hWF h1
          rw [hc] at hocc
          simp only [Option.isSome_some, if_true] at hocc
          constructor
          · show e.particleCount = (occupiedCells (setCell e.grid x y
              (some { q with updated := true })) : Int)
            rw [hinv]
            omega
          · exact WFGrid_setCell e.grid e.width e.height x y _ hWF

/-- A 1×1 engine holding one sand particle (well-formed, invariant holds). -/
def oneSandEngine : Engine :=
  { width := 1, height := 1,
    grid := [[some { type := "sand", x := 0, y := 0 }]], particleCount := 1 }

/-- Witness for C4: the invariant at concrete engines through concrete
primitive calls. -/
theorem particle_count_invariant_witness :
    WF oneSandEngine ∧ CountInv oneSandEngine
    ∧ CountInv (engRemoveParticle oneSandEngine 0 0).1
    ∧ CountInv (engCreateParticle (mkEngine 2 2) 0 1 "sand" [0]).1
    ∧ CountInv (engChangeParticleType oneSandEngine 0 0 "wood" [0]).1 := by
  have hWF : WF oneSandEngine := by
    constructor
    · rfl
    · intro row hrow
      simp [oneSandEngine] at hrow
      rw [hrow]
      rfl
  have hinv : CountInv oneSandEngine := by unfold CountInv; decide
  have hWF2 : WF (mkEngine 2 2) := WFGrid_createGrid 2 2
  have hinv2 : CountInv (mkEngine 2 2) := by unfold CountInv; decide
  exact ⟨hWF, hinv,
    (particle_count_invariant.2.2.1 oneSandEngine 0 0 hWF hinv).1,
    (particle_count_invariant.2.1 (mkEngine 2 2) 0 1 "sand" [0] hWF2
      hinv2).1,
    (particle_count_invariant.2.2.2.2.2 oneSandEngine 0 0 "wood" [0] hWF
      hinv).1⟩

/-! ### C8: visit order policy

Reference enumerations stated from the claim's wording (range-based), to be
compared with the loop-shaped source scans. -/

/-- Claim-side full raster for down gravity: bottom row to top row, left to
right within each row. -/
def rasterDown (w h : Nat) : List (Int × Int) :=
  ((List.range h).reverse).flatMap
    (fun (y : Nat) => (List.range w).map (fun (x : Nat) => ((x : Int), (y : Int))))

/-- Claim-side full raster for up gravity: top to bottom. -/
def rasterUp (w h : Nat) : List (Int × Int) :=
  (List.range h).flatMap
    (fun (y : Nat) => (List.range w).map (fun (x : Nat) => ((x : Int), (y : Int))))

/-- Claim-side full raster for left gravity: column-major, left to right. -/
def rasterLeft (w h : Nat) : List (Int × Int) :=
  (List.range w).flatMap
    (fun (x : Nat) => (List.range h).map (fun (y : Nat) => ((x : Int), (y : Int))))

/-- Claim-side full raster for right gravity: column-major, right to
left. -/
def rasterRight (w h : Nat) : List (Int × Int) :=
  ((List.range w).reverse).flatMap
    (fun (x : Nat) => (List.range h).map (fun (y : Nat) => ((x : Int), (y : Int))))

/-- The inner row loop enumerates `x` over the range. -/
theorem rowAsc_eq_range (y : Int) (w : Nat) :
    rowAsc y w = (List.range w).map (fun (x : Nat) => ((x : Int), y)) := by
  induction w with
  | zero => rfl
  | succ w ih =>
    rw [show rowAsc y (w + 1) = rowAsc y w ++ [((w : Int), y)] from rfl,
      List.range_succ, List.map_append, ih]
    rfl

/-- The inner column loop enumerates `y` over the range. -/
theorem colAsc_eq_range (x : Int) (h : Nat) :
    colAsc x h = (List.range h).map (fun (y : Nat) => (x, (y : Int))) := by
  induction h with
  | zero => rfl
  | succ h ih =>
    rw [show colAsc x (h + 1) = colAsc x h ++ [(x, (h : Int))] from rfl,
      List.range_succ, List.map_append, ih]
    rfl

/-- The bottom-to-top loop equals the claimed down raster. -/
theorem downScanLoop_eq_raster (w h : Nat) :
    downScanLoop w h = rasterDown w h := by
  induction h with
  | zero => rfl
  | succ h ih =>
    rw [show downScanLoop w (h + 1) = rowAsc (h : Int) w ++ downScanLoop w h
        from rfl, ih]
    unfold rasterDown
    rw [List.range_succ, List.reverse_append, List.reverse_singleton,
      List.singleton_append, List.flatMap_cons, rowAsc_eq_range]

/-- The top-to-bottom loop equals the claimed up raster. -/
theorem upScanLoop_eq_raster (w h : Nat) :
    upScanLoop w h = rasterUp w h := by
  induction h with
  | zero => rfl
  | succ h ih =>
    rw [show upScanLoop w (h + 1) = upScanLoop w h ++ rowAsc (h : Int) w
        from rfl, ih]
    unfold rasterUp
    rw [List.range_succ, List.flatMap_append, List.flatMap_cons,
      rowAsc_eq_range]
    simp

/-- The left-to-right loop equals the claimed left raster. -/
theorem leftScanLoop_eq_raster (h w : Nat) :
    leftScanLoop h w = rasterLeft w h := by
  induction w with
  | zero => rfl
  | succ w ih =>
    rw [show leftScanLoop h (w + 1) = leftScanLoop h w ++ colAsc (w : Int) h
        from rfl, ih]
    unfold rasterLeft
    rw [List.range_succ, List.flatMap_append, List.flatMap_cons,
      colAsc_eq_range]
    simp

/-- The right-to-left loop equals the claimed right raster. -/
theorem rightScanLoop_eq_raster (h w : Nat) :
    rightScanLoop h w = rasterRight w h := by
  induction w with
  | zero => rfl
  | succ w ih =>
    rw [show rightScanLoop h (w + 1) = colAsc (w : Int) h ++
        rightScanLoop h w from rfl, ih]
    unfold rasterRight
    rw [List.range_succ, List.reverse_append, List.reverse_singleton,
      List.singleton_append, List.flatMap_cons, colAsc_eq_range]

/-- The element count used by `List.perm_iff_count` (the `BEq` derived from
decidable equality). -/
def cnt (a : Int × Int) (l : List (Int × Int)) : Nat :=
  @List.count (Int × Int) instBEqOfDecidableEq a l

/-- Indicator of a coordinate match. -/
def indicator (u w : Int × Int) : Nat := if u = w then 1 else 0

/-- The `BEq` derived from decidable equality is lawful. -/
theorem lawfulD : @LawfulBEq (Int × Int) instBEqOfDecidableEq :=
  @LawfulBEq.mk (Int × Int) instBEqOfDecidableEq
    (fun h => of_decide_eq_true h) (fun {_} => decide_eq_true rfl)

/-- `cnt` over a cons, with a uniform indicator. -/
theorem count_cons_cnt (a b : Int × Int) (l : List (Int × Int)) :
    cnt a (b :: l) = cnt a l + indicator b a := by
  unfold cnt indicator
  by_cases h : b = a
  · subst h
    rw [if_pos rfl, @List.count_cons_self _ instBEqOfDecidableEq lawfulD]
  · rw [if_neg h, @List.count_cons_of_ne _ instBEqOfDecidableEq lawfulD _ _
      (fun hc => h hc.symm)]
    rfl

/-- Count change of an in-range element write, in additive form. -/
theorem count_set_pair (l : List (Int × Int)) (n : Nat) (v a : Int × Int)
    (h : n < l.length) :
    cnt a (l.set n v) + indicator (l.getD n v) a =
      cnt a l + indicator v a := by
  induction l generalizing n with
  | nil => simp at h
  | cons b t ih =>
    cases n with
    | zero =>
      rw [List.set_cons_zero, List.getD_cons_zero, count_cons_cnt,
        count_cons_cnt]
      omega
    | succ n =>
      have ht : n < t.length := by simpa using h
      have := ih n ht
      rw [List.set_cons_succ, List.getD_cons_succ, count_cons_cnt,
        count_cons_cnt]
      omega

/-- A JS swap preserves element counts. -/
theorem listSwap_count (l : List (Int × Int)) (i j : Nat) (a : Int × Int) :
    cnt a (listSwap l i j) = cnt a l := by
  unfold listSwap
  cases hi : l.get? i with
  | none => rfl
  | some b =>
    cases hj : l.get? j with
    | none => rfl
    | some c =>
      show cnt a ((l.set i c).set j b) = cnt a l
      have hil : i < l.length := by
        by_contra hcon
        rw [List.get?_eq_none.mpr (not_lt.mp hcon)] at hi
        exact Option.noConfusion hi
      have hjl : j < l.length := by
        by_contra hcon
        rw [List.get?_eq_none.mpr (not_lt.mp hcon)] at hj
        exact Option.noConfusion hj
      have hgdi : l.getD i c = b := by
        rw [List.getD_eq_getElem?_getD, ← List.get?_eq_getElem?, hi]
        rfl
      have hgdj : (l.set i c).getD j b = c := by
        rw [getD_set]
        by_cases hij : i = j
        · rw [if_pos ⟨hij, hil⟩]
        · rw [if_neg (fun hc => hij hc.1)]
          rw [List.getD_eq_getElem?_getD, ← List.get?_eq_getElem?, hj]
          rfl
      have h1 := count_set_pair l i c a hil
      have h2 := count_set_pair (l.set i c) j b a
        (by rw [List.length_set]; exact hjl)
      rw [hgdi] at h1
      rw [hgdj] at h2
      omega

/-- A JS swap is a permutation. -/
theorem listSwap_perm (l : List (Int × Int)) (i j : Nat) :
    (listSwap l i j).Perm l :=
  List.perm_iff_count.mpr (fun a => listSwap_count l i j a)

/-- The Fisher–Yates loop permutes its input. -/
theorem shuffleLoop_perm (i : Nat) :
    ∀ (l : List (Int × Int)) (rng : Rng),
      ((shuffleLoop i l rng).1).Perm l := by
  induction i with
  | zero => intro l rng; exact List.Perm.refl l
  | succ i ih =>
    intro l rng
    cases rng with
    | nil =>
      exact (ih (listSwap l (i + 1) ((Rat.floor ((0 : ℚ) * ((i : ℚ) + 2))).toNat)) []).trans
        (listSwap_perm l (i + 1) _)
    | cons v rest =>
      exact (ih (listSwap l (i + 1) ((Rat.floor (v * ((i : ℚ) + 2))).toNat)) rest).trans
        (listSwap_perm l (i + 1) _)

/-- A full JS shuffle permutes its input. -/
theorem jsShuffle_perm (l : List (Int × Int)) (rng : Rng) :
    ((jsShuffle l rng).1).Perm l :=
  shuffleLoop_perm (l.length - 1) l rng

/-- The shared active-only condition, phrased as the claim phrases it. -/
theorem activeOnlyTick_iff (e : Engine) :
    activeOnlyTick e ↔ ¬ (e.updateCount % 5 = 0 ∨ e.activeRegions = []) := by
  unfold activeOnlyTick
  rw [not_or]
  constructor
  · rintro ⟨h1, h2⟩
    exact ⟨h2, List.length_pos.mp h1⟩
  · rintro ⟨h1, h2⟩
    exact ⟨List.length_pos.mpr h2, h1⟩

/-- C8: on a multiple-of-5 tick or with an empty active set, the visit
order computed by `Engine.update` is the gravity-determined full raster
scan (bottom-to-top/left-to-right for down gravity, and correspondingly
for the other directions); on every other tick it is exactly the
active-region set (for the directional gravities verbatim in its insertion
order, for no-gravity as a random permutation of it). -/
theorem update_order_policy (e : Engine) (rng : Rng) :
    (e.gravity = "down" →
      (computeUpdateOrder e rng).1 =
        if e.updateCount % 5 = 0 ∨ e.activeRegions = []
        then rasterDown e.width.toNat e.height.toNat
        else e.activeRegions)
    ∧ (e.gravity = "up" →
      (computeUpdateOrder e rng).1 =
        if e.updateCount % 5 = 0 ∨ e.activeRegions = []
        then rasterUp e.width.toNat e.height.toNat
        else e.activeRegions)
    ∧ (e.gravity = "left" →
      (computeUpdateOrder e rng).1 =
        if e.updateCount % 5 = 0 ∨ e.activeRegions = []
        then rasterLeft e.width.toNat e.height.toNat
        else e.activeRegions)
    ∧ (e.gravity = "right" →
      (computeUpdateOrder e rng).1 =
        if e.updateCount % 5 = 0 ∨ e.activeRegions = []
        then rasterRight e.width.toNat e.height.toNat
        else e.activeRegions)
    ∧ (e.gravity ≠ "down" → e.gravity ≠ "up" → e.gravity ≠ "left" →
       e.gravity ≠ "right" →
      ((computeUpdateOrder e rng).1).Perm
        (if e.updateCount % 5 = 0 ∨ e.activeRegions = []
         then rasterUp e.width.toNat e.height.toNat
         else e.activeRegions)) := by
  refine ⟨?_, ?_, ?_, ?_, ?_⟩
  · intro h
    unfold computeUpdateOrder
    rw [if_pos h]
    unfold getBottomToTopOrder
    by_cases hc : e.updateCount % 5 = 0 ∨ e.activeRegions = []
    · rw [if_neg (fun ha => (activeOnlyTick_iff e).mp ha hc), if_pos hc]
      exact downScanLoop_eq_raster _ _
    · rw [if_pos ((activeOnlyTick_iff e).mpr hc), if_neg hc]
  · intro h
    unfold computeUpdateOrder
    rw [if_neg (by rw [h]; decide), if_pos h]
    unfold getTopToBottomOrder
    by_cases hc : e.updateCount % 5 = 0 ∨ e.activeRegions = []
    · rw [if_neg (fun ha => (activeOnlyTick_iff e).mp ha hc), if_pos hc]
      exact upScanLoop_eq_raster _ _
    · rw [if_pos ((activeOnlyTick_iff e).mpr hc), if_neg hc]
  · intro h
    unfold computeUpdateOrder
    rw [if_neg (by rw [h]; decide), if_neg (by rw [h]; decide), if_pos h]
    unfold getLeftToRightOrder
    by_cases hc : e.updateCount % 5 = 0 ∨ e.activeRegions = []
    · rw [if_neg (fun ha => (activeOnlyTick_iff e).mp ha hc), if_pos hc]
      exact leftScanLoop_eq_raster _ _
    · rw [if_pos ((activeOnlyTick_iff e).mpr hc), if_neg hc]
  · intro h
    unfold computeUpdateOrder
    rw [if_neg (by rw [h]; decide), if_neg (by rw [h]; decide),
      if_neg (by rw [h]; decide), if_pos h]
    unfold getRightToLeftOrder
    by_cases hc : e.updateCount % 5 = 0 ∨ e.activeRegions = []
    · rw [if_neg (fun ha => (activeOnlyTick_iff e).mp ha hc), if_pos hc]
      exact rightScanLoop_eq_raster _ _
    · rw [if_pos ((activeOnlyTick_iff e).mpr hc), if_neg hc]
  · intro h1 h2 h3 h4
    unfold computeUpdateOrder
    rw [if_neg h1, if_neg h2, if_neg h3, if_neg h4]
    unfold getRandomOrder
    by_cases hc : e.updateCount % 5 = 0 ∨ e.activeRegions = []
    · rw [if_neg (fun ha => (activeOnlyTick_iff e).mp ha hc), if_pos hc]
      exact (jsShuffle_perm _ rng).trans
        (upScanLoop_eq_raster _ _ ▸ List.Perm.refl _)
    · rw [if_pos ((activeOnlyTick_iff e).mpr hc), if_neg hc]
      exact jsShuffle_perm _ rng

/-- A 2×2 engine on a full-scan tick (tick counter 0). -/
def schedFullEngine : Engine := { mkEngine 2 2 with gravity := "down" }

/-- A 2×2 engine on an active-only tick (tick counter 1, one active
cell). -/
def schedActiveEngine : Engine :=
  { mkEngine 2 2 with
      gravity := "down"
      updateCount := 1
      activeRegions := [(0, 0)] }

/-- Witness for C8: both branches at concrete engines. -/
theorem update_order_policy_witness :
    schedFullEngine.gravity = "down"
    ∧ (schedFullEngine.updateCount % 5 = 0 ∨
        schedFullEngine.activeRegions = [])
    ∧ (computeUpdateOrder schedFullEngine []).1 = rasterDown 2 2
    ∧ schedActiveEngine.gravity = "down"
    ∧ ¬ (schedActiveEngine.updateCount % 5 = 0 ∨
        schedActiveEngine.activeRegions = [])
    ∧ (computeUpdateOrder schedActiveEngine []).1 = [(0, 0)] := by
  have hf := (update_order_policy schedFullEngine []).1 rfl
  have ha := (update_order_policy schedActiveEngine []).1 rfl
  have hcf : schedFullEngine.updateCount % 5 = 0 ∨
      schedFullEngine.activeRegions = [] := Or.inl rfl
  have hca : ¬ (schedActiveEngine.updateCount % 5 = 0 ∨
      schedActiveEngine.activeRegions = []) := by decide
  rw [if_pos hcf] at hf
  rw [if_neg hca] at ha
  exact ⟨rfl, hcf, hf, rfl, hca, ha⟩

/-! ### C5: export/import round trip -/

/-- `flatMap` respects pointwise equality of the functions on the list. -/
theorem flatMap_congr_local {α β : Type} {l : List α} {f g : α → List β}
    (h : ∀ a ∈ l, f a = g a) : l.flatMap f = l.flatMap g := by
  induction l with
  | nil => rfl
  | cons a t ih =>
    rw [List.flatMap_cons, List.flatMap_cons, h a (List.mem_cons_self a t),
      ih (fun b hb => h b (List.mem_cons_of_mem a hb))]

/-- `filterMap` respects pointwise equality of the functions on the list. -/
theorem filterMap_congr_local {α β : Type} {l : List α} {f g : α → Option β}
    (h : ∀ a ∈ l, f a = g a) : l.filterMap f = l.filterMap g := by
  induction l with
  | nil => rfl
  | cons a t ih =>
    have ht := ih (fun b hb => h b (List.mem_cons_of_mem a hb))
    have ha := h a (List.mem_cons_self a t)
    cases hfa : f a with
    | none =>
      rw [List.filterMap_cons_none hfa,
        List.filterMap_cons_none (by rw [← ha]; exact hfa), ht]
    | some b =>
      rw [List.filterMap_cons_some hfa,
        List.filterMap_cons_some (by rw [← ha]; exact hfa), ht]

/-- Membership in the exported particle list: exactly the occupied in-range
cells, recorded by `expEntry` at their scan coordinates. -/
theorem mem_export (e : Engine) (p : SavedParticle) :
    p ∈ (exportCompressedState e).particles ↔
      ∃ x y : Nat, x < e.width.toNat ∧ y < e.height.toNat ∧
        ∃ q : Particle, cell e.grid (x : Int) (y : Int) = some q ∧
          expEntry (x : Int) (y : Int) q = p := by
  show p ∈ exportParticles e ↔ _
  unfold exportParticles
  constructor
  · intro hp
    rcases List.mem_flatMap.mp hp with ⟨y, hy, hin⟩
    rcases List.mem_filterMap.mp hin with ⟨x, hx, hfx⟩
    rcases Option.map_eq_some'.mp hfx with ⟨q, hq, he⟩
    exact ⟨x, y, List.mem_range.mp hx, List.mem_range.mp hy, q, hq, he⟩
  · rintro ⟨x, y, hx, hy, q, hq, he⟩
    exact List.mem_flatMap.mpr ⟨y, List.mem_range.mpr hy,
      List.mem_filterMap.mpr ⟨x, List.mem_range.mpr hx,
        Option.map_eq_some'.mpr ⟨q, hq, he⟩⟩⟩

/-- A fold of `importPlace` leaves every cell whose indices no placed entry
hits unchanged. -/
theorem cell_foldl_importPlace_ne (ps : List SavedParticle) :
    ∀ (e : Engine) (x y : Int),
      (∀ p ∈ ps, ¬ (p.x.toNat = x.toNat ∧ p.y.toNat = y.toNat)) →
      cell ((ps.foldl importPlace e).grid) x y = cell e.grid x y := by
  induction ps with
  | nil => intro e x y _; rfl
  | cons p t ih =>
    intro e x y h
    rw [List.foldl_cons,
      ih (importPlace e p) x y (fun q hq => h q (List.mem_cons_of_mem p hq))]
    have hg : (importPlace e p).grid =
        setCell e.grid p.x p.y (some (restoredParticle p)) := rfl
    rw [hg]
    exact cell_setCell_ne e.grid p.x p.y _ x y (h p (List.mem_cons_self p t))

/-- A fold of `importPlace` keeps the dimensions and the particle counter. -/
theorem foldl_importPlace_dims (ps : List SavedParticle) :
    ∀ e : Engine,
      (ps.foldl importPlace e).width = e.width ∧
      (ps.foldl importPlace e).height = e.height ∧
      (ps.foldl importPlace e).particleCount = e.particleCount := by
  induction ps with
  | nil => intro e; exact ⟨rfl, rfl, rfl⟩
  | cons p t ih =>
    intro e
    rw [List.foldl_cons]
    exact ih (importPlace e p)

/-- A fold of `importPlace` placing only coordinate-distinct in-bounds
entries puts each entry's restored particle at its coordinates. -/
theorem cell_foldl_importPlace_hit (ps : List SavedParticle) :
    ∀ (e : Engine), WF e →
      (∀ p ∈ ps, inBounds e.width e.height p.x p.y) →
      ∀ p₀ ∈ ps,
        (∀ p ∈ ps, p.x = p₀.x → p.y = p₀.y → p = p₀) →
        cell ((ps.foldl importPlace e).grid) p₀.x p₀.y =
          some (restoredParticle p₀) := by
  induction ps with
  | nil => intro e _ _ p₀ hmem _; exact absurd hmem (List.not_mem_nil p₀)
  | cons p t ih =>
    intro e hWF hbnd p₀ hmem huniq
    rw [List.foldl_cons]
    by_cases hm : p₀ ∈ t
    · refine ih (importPlace e p) ?_ ?_ p₀ hm ?_
      · exact WFGrid_setCell e.grid e.width e.height p.x p.y _ hWF
      · intro q hq
        exact hbnd q (List.mem_cons_of_mem p hq)
      · intro q hq hqx hqy
        exact huniq q (List.mem_cons_of_mem p hq) hqx hqy
    · have hp : p₀ = p := by
        rcases List.mem_cons.mp hmem with h | h
        · exact h
        · exact absurd h hm
      subst hp
      have hno : ∀ q ∈ t,
          ¬ (q.x.toNat = p₀.x.toNat ∧ q.y.toNat = p₀.y.toNat) := by
        intro q hq hc
        rcases hbnd q (List.mem_cons_of_mem p₀ hq) with ⟨hq1, _, hq3, _⟩
        rcases hbnd p₀ (List.mem_cons_self p₀ t) with ⟨hp1, _, hp3, _⟩
        have hqx : q.x = p₀.x := by omega
        have hqy : q.y = p₀.y := by omega
        exact hm (huniq q (List.mem_cons_of_mem p₀ hq) hqx hqy ▸ hq)
      rw [cell_foldl_importPlace_ne t (importPlace e p₀) p₀.x p₀.y hno]
      have hg : (importPlace e p₀).grid =
          setCell e.grid p₀.x p₀.y (some (restoredParticle p₀)) := rfl
      rw [hg]
      exact cell_setCell_self e.grid e.width e.height p₀.x p₀.y _ hWF
        (hbnd p₀ (List.mem_cons_self p₀ t))

/-- The loop base of `importCompressedState` on the engine's own snapshot:
fresh grid, counter taken over, active set cleared. -/
def importBase (e : Engine) : Engine :=
  { e with grid := createGrid e.width e.height
           particleCount := e.particleCount
           activeRegions := [] }

/-- Exported entries record in-bounds coordinates. -/
theorem export_entry_inBounds (e : Engine) (p : SavedParticle)
    (hp : p ∈ (exportCompressedState e).particles) :
    inBounds e.width e.height p.x p.y := by
  rcases (mem_export e p).mp hp with ⟨a, b, ha, hb, q, _, he⟩
  subst he
  show inBounds e.width e.height (a : Int) (b : Int)
  unfold inBounds
  omega

/-- Exported entries with equal coordinates are equal. -/
theorem export_entry_unique (e : Engine) (p p₀ : SavedParticle)
    (hp : p ∈ (exportCompressedState e).particles)
    (hp₀ : p₀ ∈ (exportCompressedState e).particles)
    (hx : p.x = p₀.x) (hy : p.y = p₀.y) : p = p₀ := by
  rcases (mem_export e p).mp hp with ⟨a, b, _, _, q, hq, he⟩
  rcases (mem_export e p₀).mp hp₀ with ⟨a₀, b₀, _, _, q₀, hq₀, he₀⟩
  subst he
  subst he₀
  have hax : (a : Int) = (a₀ : Int) := hx
  have hby : (b : Int) = (b₀ : Int) := hy
  rw [hax, hby] at hq
  have hqq : q = q₀ := Option.some.inj (hq.symm.trans hq₀)
  rw [hax, hby, hqq]

/-- C5: for a well-formed engine, importing its own exported snapshot
occupies exactly the cells that were occupied, at the same coordinates,
each holding a particle with the same type and the same `life`, `burning`
and `corrosion` fields (this is `restoredParticle (expEntry x y p)`); in
particular re-exporting the round-tripped engine reproduces the snapshot
verbatim. -/
theorem export_import_roundtrip (e : Engine) (hWF : WF e) :
    (∀ x y : Int, inBounds e.width e.height x y →
      cell (importCompressedState e (exportCompressedState e)).grid x y =
        (cell e.grid x y).map (fun p => restoredParticle (expEntry x y p)))
    ∧ exportCompressedState
        (importCompressedState e (exportCompressedState e)) =
      exportCompressedState e := by
  have himp : importCompressedState e (exportCompressedState e) =
      (exportCompressedState e).particles.foldl importPlace (importBase e) :=
    rfl
  have hWFb : WF (importBase e) := WFGrid_createGrid e.width e.height
  have hbnd : ∀ p ∈ (exportCompressedState e).particles,
      inBounds (importBase e).width (importBase e).height p.x p.y :=
    fun p hp => export_entry_inBounds e p hp
  have hpoint : ∀ x y : Int, inBounds e.width e.height x y →
      cell (importCompressedState e (exportCompressedState e)).grid x y =
        (cell e.grid x y).map (fun p => restoredParticle (expEntry x y p)) := by
    intro x y hin
    rcases hin with ⟨hx0, hxw, hy0, hyh⟩
    cases hq : cell e.grid x y with
    | none =>
      have hno : ∀ p ∈ (exportCompressedState e).particles,
          ¬ (p.x.toNat = x.toNat ∧ p.y.toNat = y.toNat) := by
        intro p hp hc
        rcases (mem_export e p).mp hp with ⟨a, b, _, _, q, hqc, he⟩
        subst he
        have hpx : (expEntry (a : Int) (b : Int) q).x = (a : Int) := rfl
        have hpy : (expEntry (a : Int) (b : Int) q).y = (b : Int) := rfl
        have h1 := hc.1
        have h2 := hc.2
        rw [hpx] at h1
        rw [hpy] at h2
        have hax : (a : Int) = x := by omega
        have hby : (b : Int) = y := by omega
        rw [hax, hby, hq] at hqc
        exact Option.noConfusion hqc
      rw [himp,
        cell_foldl_importPlace_ne (exportCompressedState e).particles
          (importBase e) x y hno]
      have hbase : (importBase e).grid = createGrid e.width e.height := rfl
      rw [hbase, cell_createGrid]
      rfl
    | some q =>
      have hx' : ((x.toNat : Nat) : Int) = x := by omega
      have hy' : ((y.toNat : Nat) : Int) = y := by omega
      have hmem : expEntry x y q ∈ (exportCompressedState e).particles := by
        refine (mem_export e (expEntry x y q)).mpr
          ⟨x.toNat, y.toNat, by omega, by omega, q, ?_, ?_⟩
        · rw [hx', hy']
          exact hq
        · rw [hx', hy']
      have huniq : ∀ p ∈ (exportCompressedState e).particles,
          p.x = (expEntry x y q).x → p.y = (expEntry x y q).y →
          p = expEntry x y q :=
        fun p hp h1 h2 => export_entry_unique e p (expEntry x y q) hp hmem h1 h2
      have hhit := cell_foldl_importPlace_hit
        (exportCompressedState e).particles (importBase e) hWFb hbnd
        (expEntry x y q) hmem huniq
      rw [himp]
      exact hhit
  refine ⟨hpoint, ?_⟩
  have hdims := foldl_importPlace_dims (exportCompressedState e).particles
    (importBase e)
  have hgen : ∀ E : Engine, E.width = e.width → E.height = e.height →
      E.particleCount = e.particleCount →
      (∀ x y : Int, inBounds e.width e.height x y →
        cell E.grid x y =
          (cell e.grid x y).map
            (fun p => restoredParticle (expEntry x y p))) →
      exportCompressedState E = exportCompressedState e := by
    intro E hw hh hc hpt
    unfold exportCompressedState
    simp only [CompressedState.mk.injEq]
    refine ⟨?_, hw, hh, hc⟩
    unfold exportParticles
    rw [hw, hh]
    refine flatMap_congr_local (fun b hb => ?_)
    refine filterMap_congr_local (fun a ha => ?_)
    rw [List.mem_range] at hb ha
    have hin : inBounds e.width e.height (a : Int) (b : Int) := by
      unfold inBounds
      omega
    rw [hpt (a : Int) (b : Int) hin]
    cases cell e.grid (a : Int) (b : Int) with
    | none => rfl
    | some q => rfl
  refine hgen _ ?_ ?_ ?_ hpoint
  · rw [himp]
    exact hdims.1
  · rw [himp]
    exact hdims.2.1
  · rw [himp]
    exact hdims.2.2

/-- A 2×2 engine holding one water particle with transient fields set. -/
def rtEngine : Engine :=
  { mkEngine 2 2 with
      grid := setCell (createGrid 2 2) 0 1
        (some { type := "water", x := 0, y := 1, life := some 50,
                corrosion := some (1/2) })
      particleCount := 1 }

/-- Witness for C5: the round trip at a concrete engine, checked at an
occupied and at an empty cell, and the verbatim re-export. -/
theorem export_import_roundtrip_witness :
    WF rtEngine
    ∧ cell (importCompressedState rtEngine
          (exportCompressedState rtEngine)).grid 0 1 =
        (cell rtEngine.grid 0 1).map
          (fun p => restoredParticle (expEntry 0 1 p))
    ∧ cell (importCompressedState rtEngine
          (exportCompressedState rtEngine)).grid 1 0 =
        (cell rtEngine.grid 1 0).map
          (fun p => restoredParticle (expEntry 1 0 p))
    ∧ exportCompressedState
        (importCompressedState rtEngine (exportCompressedState rtEngine)) =
      exportCompressedState rtEngine :=
  ⟨by unfold WF WFGrid; decide,
   (export_import_roundtrip rtEngine (by unfold WF WFGrid; decide)).1 0 1
     (by decide),
   (export_import_roundtrip rtEngine (by unfold WF WFGrid; decide)).1 1 0
     (by decide),
   (export_import_roundtrip rtEngine (by unfold WF WFGrid; decide)).2⟩

end Powder
